import Mathlib

/-!
Verification development for the alphasignal strategy engine.

The engine derives BUY/HOLD trading signals for a symbol by fusing a
technical indicator condition over a candle series with a recency- and
impact-weighted news-sentiment aggregate.

Shallow embedding conventions:
* Python floats are modelled as `ℚ` (every numeric literal in the source is
  decimal-exact, so all arithmetic on the modelled paths is exact).
* Fallible Python code is modelled with `Except PyErr`: `float(...)` on a
  truthy non-numeric value raises `ValueError`, `x / 0` raises
  `ZeroDivisionError`, and `max(...)` of an empty sequence raises
  `ValueError`.
* The Supabase news fetch in `NewsSentimentStrategy._fetch_recent_news` is
  external I/O; `generate_signal` here takes the fetched article list as an
  explicit parameter.  An article's `published_at` timestamp enters the
  computation only through `hours_ago = (now - published_at)/3600`, so the
  article model carries that rational directly.
* `round(x, n)` is modelled as rounding `x * 10^n` to the nearest integer
  (ties at the fourth decimal round half-up here; no statement below
  depends on tie behaviour).
-/

/-- Error values a modelled Python computation can raise. -/
inductive PyErr where
  | valueError
  | zeroDivisionError
deriving DecidableEq

/-- A field of a news-article record as seen by `art.get(...)`:
absent-or-falsy (`None`, missing key, empty string), a numeric value
(numbers, or numeric strings accepted by `float`), or a truthy value that
`float(...)` cannot parse. -/
inductive FieldVal where
  | absent
  | num (q : ℚ)
  | nonNumericStr
deriving DecidableEq

/-- A news article as consumed by `_aggregate_sentiment`:
the raw `sentiment_score` and `impact_score` fields plus the derived
`hours_ago` value of its `published_at` timestamp. -/
structure Article where
  sentiment_score : FieldVal
  impact_score : FieldVal
  hoursAgo : ℚ
deriving DecidableEq

/-- A candle record (`strategies/base.py`, `Candle`). -/
structure Candle where
  time : String
  open_ : ℚ
  high : ℚ
  low : ℚ
  close : ℚ
  volume : ℚ
deriving DecidableEq

/-- The `extra` dict of a news-sentiment result: `reason` is present only on
the short-circuit branch; `articles_count` and `avg_sentiment` are always
present. -/
structure NewsExtra where
  reason : Option String
  articles_count : Nat
  avg_sentiment : ℚ
deriving DecidableEq

/-- A `StrategyResult` of the news-sentiment strategy. -/
structure NewsResult where
  signal_type : String
  confidence : ℚ
  extra : NewsExtra
deriving DecidableEq

/-- The `extra` dict of a combination-strategy result; each field is `some`
exactly when the corresponding key is present in the returned dict. -/
structure ComboExtra where
  reason : Option String
  normalized_score : Option ℚ
  rsi : Option ℚ
  close : Option ℚ
  highest_high_lookback : Option ℚ
  ma200 : Option ℚ
  recent_high : Option ℚ
  drop_from_high : Option ℚ
  news : Option NewsResult
deriving DecidableEq

/-- A `StrategyResult` of a combination strategy. -/
structure ComboResult where
  signal_type : String
  confidence : ℚ
  extra : ComboExtra
deriving DecidableEq

/-- Python `round(x, 3)`. -/
def round3 (x : ℚ) : ℚ := ((round (x * 1000) : ℤ) : ℚ) / 1000

/-- Python `round(x, 2)`. -/
def round2 (x : ℚ) : ℚ := ((round (x * 100) : ℤ) : ℚ) / 100

/-- Python `float(v or d)` for a field value `v` and numeric default `d`:
falsy values (absent, `None`, `0`) are replaced by the default before the
`float` coercion; a truthy non-numeric value makes `float` raise. -/
def pyFloatOr (v : FieldVal) (d : ℚ) : Except PyErr ℚ :=
  match v with
  | .absent => .ok d
  | .num q => .ok (if q = 0 then d else q)
  | .nonNumericStr => .error .valueError

/-- `recency_weight = max(0.1, 1.0 / (1.0 + hours_ago / 8.0))`
(`news_sentiment.py` line 53); the division raises `ZeroDivisionError`
when `1 + hours_ago / 8 = 0`, i.e. `hours_ago = -8`. -/
def recency_weight (hours_ago : ℚ) : Except PyErr ℚ :=
  if 1 + hours_ago / 8 = 0 then .error .zeroDivisionError
  else .ok (max 0.1 (1 / (1 + hours_ago / 8)))

/-- The accumulation loop of `_aggregate_sentiment`
(`news_sentiment.py` lines 42-57), threading `weighted_sum` and
`weight_total`. -/
def aggLoop : List Article → ℚ → ℚ → Except PyErr (ℚ × ℚ)
  | [], weighted_sum, weight_total => .ok (weighted_sum, weight_total)
  | art :: rest, weighted_sum, weight_total =>
    match pyFloatOr art.sentiment_score 0 with
    | .error e => .error e
    | .ok s =>
      match pyFloatOr art.impact_score 0.5 with
      | .error e => .error e
      | .ok impact =>
        match recency_weight art.hoursAgo with
        | .error e => .error e
        | .ok rw =>
          aggLoop rest (weighted_sum + s * (impact * rw))
            (weight_total + impact * rw)

/-- `NewsSentimentStrategy._aggregate_sentiment`
(`news_sentiment.py` lines 34-59). -/
def NewsSentimentStrategy.aggregate_sentiment
    (articles : List Article) : Except PyErr ℚ :=
  if articles.isEmpty then .ok 0
  else
    match aggLoop articles 0 0 with
    | .error e => .error e
    | .ok (weighted_sum, weight_total) =>
      .ok (if weight_total > 0 then weighted_sum / weight_total else 0)

/-- Configuration of `NewsSentimentStrategy` (defaults: 24 hours, 2
articles). -/
structure NewsSentimentStrategy where
  lookback_hours : Nat
  min_articles : Nat
deriving DecidableEq

/-- `NewsSentimentStrategy.generate_signal`
(`news_sentiment.py` lines 61-96); `articles` is the list returned by the
external `_fetch_recent_news` query. -/
def NewsSentimentStrategy.generate_signal (self : NewsSentimentStrategy)
    (articles : List Article) : Except PyErr NewsResult :=
  if articles.length < self.min_articles then
    .ok ⟨"HOLD", 0.1, ⟨some ("not_enough_news"), articles.length, 0⟩⟩
  else
    match NewsSentimentStrategy.aggregate_sentiment articles with
    | .error e => .error e
    | .ok avg_sentiment =>
      .ok ⟨if avg_sentiment > 0 then "BUY" else "HOLD",
           round3 (min 1 (max 0 |avg_sentiment|)),
           ⟨none, articles.length, round3 avg_sentiment⟩⟩

/-- `np.diff`: consecutive differences `arr[i+1] - arr[i]`. -/
def diffs : List ℚ → List ℚ
  | [] => []
  | [_] => []
  | a :: b :: rest => (b - a) :: diffs (b :: rest)

/-- `compute_rsi` (`indicators.py` lines 6-32): neutral 50.0 on short
input, otherwise seeded Wilder smoothing over per-step gains and losses,
run as a single loop carrying the `(avg_gain, avg_loss)` pair. -/
def compute_rsi (closes : List ℚ) (period : Nat) : ℚ :=
  if closes.length < period + 1 then 50
  else
    let delta := diffs closes
    let gains := delta.map (fun d => if 0 < d then d else 0)
    let losses := delta.map (fun d => if d < 0 then -d else 0)
    let avg_gain := (gains.take period).sum / period
    let avg_loss := (losses.take period).sum / period
    let fin := ((gains.drop period).zip (losses.drop period)).foldl
      (fun acc gl =>
        ((acc.1 * ((period : ℚ) - 1) + gl.1) / period,
         (acc.2 * ((period : ℚ) - 1) + gl.2) / period))
      (avg_gain, avg_loss)
    if fin.2 = 0 then 100 else 100 - 100 / (1 + fin.1 / fin.2)

/-- Python slice `l[-k:]`; note `l[-0:]` is the whole list. -/
def sliceLastPy (l : List α) (k : Nat) : List α :=
  if k = 0 then l else l.drop (l.length - k)

/-- Python `max(...)` over a list: raises `ValueError` on an empty list. -/
def listMaxQ : List ℚ → Except PyErr ℚ
  | [] => .error .valueError
  | x :: xs => .ok (xs.foldl max x)

/-- `simple_ma` (`indicators.py` lines 35-38): last value (or 0.0) when
input is shorter than the period; the division raises for `period = 0`
when the length guard does not fire. -/
def simple_ma (values : List ℚ) (period : Nat) : Except PyErr ℚ :=
  if values.length < period then .ok ((values.getLast?).getD 0)
  else if period = 0 then .error .zeroDivisionError
  else .ok ((sliceLastPy values period).sum / period)

/-- `highest_high` (`indicators.py` lines 41-44). -/
def highest_high (candles : List Candle) (lookback : Nat) :
    Except PyErr ℚ :=
  if candles.length < lookback then listMaxQ (candles.map Candle.high)
  else listMaxQ ((sliceLastPy candles lookback).map Candle.high)

/-- The fusion block shared verbatim by the three combination strategies
(`combined_strategies.py` lines 39-50, 92-104 and 156-167): returns
`(signal_type, confidence, normalized)`; the caller applies `round3` to
the confidence before returning it. -/
def fuseSignal (tech_buy : Bool) (avg_sentiment news_confidence : ℚ) :
    String × ℚ × ℚ :=
  let tech_score : ℚ := if tech_buy then 1 else 0
  let news_score : ℚ := max 0 avg_sentiment
  let tech_weight : ℚ := 0.7 * (if tech_buy then 1 else 0.5)
  let news_weight : ℚ := 0.3 * max 0.2 news_confidence
  let combined_score := tech_weight * tech_score + news_weight * news_score
  let max_possible := tech_weight + news_weight
  let normalized :=
    if max_possible > 0 then combined_score / max_possible else 0
  let signal_type :=
    if tech_buy ∧ normalized ≥ 0.35 then "BUY" else "HOLD"
  let confidence := if signal_type = "BUY" then normalized else 0.2
  (signal_type, confidence, normalized)

/-- The `extra` dict of the shared insufficient-history branch. -/
def comboShortExtra : ComboExtra :=
  ⟨some ("not_enough_candles"), none, none, none, none, none, none, none,
   none⟩

/-- Placeholder candle for the (never taken) empty-list case of
`candles[-1]`. -/
def defaultCandle : Candle := ⟨"", 0, 0, 0, 0, 0⟩

/-- Configuration of `NewsRSICombo` (defaults: period 14, oversold 30). -/
structure NewsRSICombo where
  news_strategy : NewsSentimentStrategy
  rsi_period : Nat
  oversold : ℚ
deriving DecidableEq

/-- `NewsRSICombo.generate_signal` (`combined_strategies.py` lines
24-60). -/
def NewsRSICombo.generate_signal (self : NewsRSICombo)
    (candles : List Candle) (articles : List Article) :
    Except PyErr ComboResult :=
  if candles.length < self.rsi_period + 1 then
    .ok ⟨"HOLD", 0.1, comboShortExtra⟩
  else
    let closes := candles.map Candle.close
    let rsi := compute_rsi closes self.rsi_period
    let tech_buy := decide (rsi < self.oversold)
    match self.news_strategy.generate_signal articles with
    | .error e => .error e
    | .ok news_res =>
      let fs := fuseSignal tech_buy news_res.extra.avg_sentiment
        news_res.confidence
      .ok ⟨fs.1, round3 fs.2.1,
           ⟨none, some (round3 fs.2.2), some (round2 rsi), none, none,
            none, none, none, some news_res⟩⟩

/-- Configuration of `NewsBreakoutCombo` (default lookback 20). -/
structure NewsBreakoutCombo where
  news_strategy : NewsSentimentStrategy
  lookback : Nat
deriving DecidableEq

/-- `NewsBreakoutCombo.generate_signal` (`combined_strategies.py` lines
76-115). -/
def NewsBreakoutCombo.generate_signal (self : NewsBreakoutCombo)
    (candles : List Candle) (articles : List Article) :
    Except PyErr ComboResult :=
  if candles.length < self.lookback + 1 then
    .ok ⟨"HOLD", 0.1, comboShortExtra⟩
  else
    let last := (candles.getLast?).getD defaultCandle
    match highest_high candles.dropLast self.lookback with
    | .error e => .error e
    | .ok hh =>
      let close := last.close
      let tech_buy := decide (close > hh)
      match self.news_strategy.generate_signal articles with
      | .error e => .error e
      | .ok news_res =>
        let fs := fuseSignal tech_buy news_res.extra.avg_sentiment
          news_res.confidence
        .ok ⟨fs.1, round3 fs.2.1,
             ⟨none, some (round3 fs.2.2), none, some close, some hh, none,
              none, none, some news_res⟩⟩

/-- Configuration of `NewsTrendMA200Combo` (defaults: period 200,
pullback 0.05). -/
structure NewsTrendMA200Combo where
  news_strategy : NewsSentimentStrategy
  ma_period : Nat
  pullback_pct : ℚ
deriving DecidableEq

/-- `NewsTrendMA200Combo.generate_signal` (`combined_strategies.py` lines
133-180). -/
def NewsTrendMA200Combo.generate_signal (self : NewsTrendMA200Combo)
    (candles : List Candle) (articles : List Article) :
    Except PyErr ComboResult :=
  if candles.length < self.ma_period + 20 then
    .ok ⟨"HOLD", 0.1, comboShortExtra⟩
  else
    let closes := candles.map Candle.close
    match simple_ma closes self.ma_period with
    | .error e => .error e
    | .ok ma200 =>
      let last := (candles.getLast?).getD defaultCandle
      let close := last.close
      let uptrend := decide (close > ma200)
      let recent_closes := sliceLastPy closes 20
      match listMaxQ recent_closes with
      | .error e => .error e
      | .ok recent_high =>
        let drop_from_high :=
          if recent_high > 0 then (recent_high - close) / recent_high
          else 0
        let tech_buy := uptrend &&
          decide (self.pullback_pct * 0.5 ≤ drop_from_high ∧
            drop_from_high ≤ self.pullback_pct)
        match self.news_strategy.generate_signal articles with
        | .error e => .error e
        | .ok news_res =>
          let fs := fuseSignal tech_buy news_res.extra.avg_sentiment
            news_res.confidence
          .ok ⟨fs.1, round3 fs.2.1,
               ⟨none, some (round3 fs.2.2), none, some close, none,
                some (round2 ma200), some recent_high,
                some (round3 drop_from_high), some news_res⟩⟩

/-! ### Claim-side definitions

Each definition below follows the words of a spec claim (to be compared
with the corresponding source-side definition above), or packages a
hypothesis used by a claim. -/

/-- Predicate transformer for fallible results: the property holds of the
value whenever the computation returns one. -/
def onOk {α : Type} (x : Except PyErr α) (P : α → Prop) : Prop :=
  match x with
  | .ok a => P a
  | .error _ => True

/-- Whether a fallible computation completed without raising. -/
def exceptOk {α : Type} : Except PyErr α → Bool
  | .ok _ => true
  | .error _ => false

/-- The sentiment component of the spec's `NewsItem` data model:
`sentiment_score` numeric in [-1, 1] or absent. -/
def validSentField (f : FieldVal) : Bool :=
  match f with
  | .absent => true
  | .num q => decide (-1 ≤ q ∧ q ≤ 1)
  | .nonNumericStr => false

/-- The impact component of the `NewsItem` data model: numeric in [0, 1]
or absent. -/
def validImpactField (f : FieldVal) : Bool :=
  match f with
  | .absent => true
  | .num q => decide (0 ≤ q ∧ q ≤ 1)
  | .nonNumericStr => false

/-- An article that satisfies the spec's `NewsItem` data model. -/
def validArticle (a : Article) : Bool :=
  validSentField a.sentiment_score && validImpactField a.impact_score &&
    decide (0 ≤ a.hoursAgo)

/-- An article whose present fields are numeric (no truthy non-numeric
value that would make `float` raise). -/
def numericOk (a : Article) : Bool :=
  (match a.sentiment_score with
   | .nonNumericStr => false
   | _ => true) &&
  (match a.impact_score with
   | .nonNumericStr => false
   | _ => true)

/-- An article whose recency denominator `1 + hours_ago/8` is nonzero. -/
def denomOk (a : Article) : Bool := decide (1 + a.hoursAgo / 8 ≠ 0)

/-- Modelled from the spec: the fusion algorithm exactly as the claim
states it — `tech_weight` is 0.7 or 0.35, `normalized` is the unguarded
weighted quotient, BUY exactly when the technical condition holds and
`normalized ≥ 0.35`, confidence `normalized` rounded to 3 decimals on BUY
and 0.2 on HOLD.  Returns `(signal_type, confidence, normalized)`. -/
def fusionSpec (tech_buy : Bool) (avg_sentiment news_confidence : ℚ) :
    String × ℚ × ℚ :=
  let news_score : ℚ := max 0 avg_sentiment
  let tech_score : ℚ := if tech_buy then 1 else 0
  let tech_weight : ℚ := if tech_buy then 0.7 else 0.35
  let news_weight : ℚ := 0.3 * max 0.2 news_confidence
  let normalized :=
    (tech_weight * tech_score + news_weight * news_score) /
      (tech_weight + news_weight)
  let signal_type :=
    if tech_buy ∧ normalized ≥ 0.35 then "BUY" else "HOLD"
  let confidence :=
    if signal_type = "BUY" then round3 normalized else 0.2
  (signal_type, confidence, normalized)

/-- The sentiment value a claim ascribes to an article (0.0 when the field
is absent). -/
def claimSentVal (f : FieldVal) : ℚ :=
  match f with
  | .num q => q
  | _ => 0

/-- The impact value claim C5 ascribes to an article: the stored
`impact_score`, with 0.5 only when the field is absent. -/
def claimImpactVal (f : FieldVal) : ℚ :=
  match f with
  | .num q => q
  | .absent => 0.5
  | .nonNumericStr => 0

/-- The impact value the code actually uses: 0.5 when the field is absent
or falsy (in particular when the stored impact is 0). -/
def codeImpactVal (f : FieldVal) : ℚ :=
  match f with
  | .num q => if q = 0 then 0.5 else q
  | .absent => 0.5
  | .nonNumericStr => 0

/-- The recency weight formula of claim C5:
`max(0.1, 1/(1 + hours_ago/8))`. -/
def claimRecency (hours_ago : ℚ) : ℚ :=
  max 0.1 (1 / (1 + hours_ago / 8))

/-- Article weight as claim C5 states it: `impact * recency`. -/
def claimWeight (a : Article) : ℚ :=
  claimImpactVal a.impact_score * claimRecency a.hoursAgo

/-- Article weight as the code computes it (falsy impact defaults). -/
def codeWeight (a : Article) : ℚ :=
  codeImpactVal a.impact_score * claimRecency a.hoursAgo

/-- Modelled from the spec: the weighted average sentiment exactly as
claim C5 states it (0.0 when the total weight is 0). -/
def claimAvg (arts : List Article) : ℚ :=
  let total := (arts.map claimWeight).sum
  if total = 0 then 0
  else (arts.map (fun a => claimSentVal a.sentiment_score * claimWeight a)).sum / total

/-- The weighted average sentiment the code computes on raise-free inputs:
like `claimAvg` but with the code's falsy-impact default. -/
def codeAvg (arts : List Article) : ℚ :=
  let total := (arts.map codeWeight).sum
  if total > 0 then
    (arts.map (fun a => claimSentVal a.sentiment_score * codeWeight a)).sum / total
  else 0

/-- Modelled from the spec: the full news-sentiment result exactly as
claim C5 states it — short-circuit below `min_articles`, otherwise the
unrounded weighted average, confidence `clamp(|avg|, 0, 1)` unrounded,
BUY exactly when the average is positive. -/
def claimNewsResult (self : NewsSentimentStrategy)
    (arts : List Article) : NewsResult :=
  if arts.length < self.min_articles then
    ⟨"HOLD", 0.1, ⟨some ("not_enough_news"), arts.length, 0⟩⟩
  else
    let avg := claimAvg arts
    ⟨if avg > 0 then "BUY" else "HOLD", min 1 (max 0 |avg|),
     ⟨none, arts.length, avg⟩⟩

/-- One step of Wilder smoothing: `avg = (avg*(period-1) + value)/period`. -/
def wilder_step (period : Nat) (avg v : ℚ) : ℚ :=
  (avg * ((period : ℚ) - 1) + v) / period

/-- Wilder smoothing of a value sequence from a seed average. -/
def wilder_smooth (period : Nat) (init : ℚ) (vals : List ℚ) : ℚ :=
  vals.foldl (wilder_step period) init

/-- Modelled from the spec: the Wilder RSI reference definition of claim
C6 — gains/losses are the positive/negative parts of consecutive
differences, averages are seeded as the mean of the first `period` values
and then Wilder-smoothed separately, and the result is 100 exactly when
the final average loss is 0. -/
def wilder_rsi_ref (closes : List ℚ) (period : Nat) : ℚ :=
  if closes.length < period + 1 then 50
  else
    let delta := diffs closes
    let gains := delta.map (fun d => max d 0)
    let losses := delta.map (fun d => max (-d) 0)
    let avg_gain :=
      wilder_smooth period ((gains.take period).sum / period)
        (gains.drop period)
    let avg_loss :=
      wilder_smooth period ((losses.take period).sum / period)
        (losses.drop period)
    if avg_loss = 0 then 100
    else 100 - 100 / (1 + avg_gain / avg_loss)

/-- The true last `k` elements of a list (empty when `k = 0`). -/
def lastSlice (l : List α) (k : Nat) : List α := l.drop (l.length - k)

/-- Modelled from the spec: `highest_high` exactly as claim C8 states it —
the maximum high over the last `lookback` candles, or over all candles
when fewer exist. -/
def claimHH (candles : List Candle) (lookback : Nat) : Except PyErr ℚ :=
  if candles.length < lookback then listMaxQ (candles.map Candle.high)
  else listMaxQ ((lastSlice candles lookback).map Candle.high)

/-! ### Helper lemmas -/

lemma round3_mono {a b : ℚ} (h : a ≤ b) : round3 a ≤ round3 b := by
  unfold round3
  have h1 : round (a * 1000) ≤ round (b * 1000) := by
    rw [round_eq, round_eq]
    exact Int.floor_le_floor (by linarith)
  have h2 : ((round (a * 1000) : ℤ) : ℚ) ≤ ((round (b * 1000) : ℤ) : ℚ) := by
    exact_mod_cast h1
  linarith

lemma round3_zero : round3 0 = 0 := by norm_num [round3, round_eq]

lemma round3_one : round3 1 = 1 := by norm_num [round3, round_eq]

lemma round3_pointTwo : round3 0.2 = 0.2 := by norm_num [round3, round_eq]

lemma round3_pointSeven : round3 0.7 = 0.7 := by norm_num [round3, round_eq]

lemma round3_negOne : round3 (-1) = -1 := by norm_num [round3, round_eq]

lemma round3_nonneg {x : ℚ} (h : 0 ≤ x) : 0 ≤ round3 x := by
  have h2 := round3_mono h
  rwa [round3_zero] at h2

lemma round3_le_one {x : ℚ} (h : x ≤ 1) : round3 x ≤ 1 := by
  have h2 := round3_mono h
  rwa [round3_one] at h2

lemma round3_ge_negOne {x : ℚ} (h : -1 ≤ x) : -1 ≤ round3 x := by
  have h2 := round3_mono h
  rwa [round3_negOne] at h2

lemma round3_ge_pointSeven {x : ℚ} (h : 0.7 ≤ x) : 0.7 ≤ round3 x := by
  have h2 := round3_mono h
  rwa [round3_pointSeven] at h2

lemma hold_ne_buy : ("HOLD" = "BUY") = False := by simp

lemma buy_eq_buy : ("BUY" = "BUY") = True := by simp

lemma news_weight_lb (conf : ℚ) : (0.06 : ℚ) ≤ 0.3 * max 0.2 conf := by
  have h := le_max_left (0.2 : ℚ) conf
  nlinarith

lemma news_weight_ub {conf : ℚ} (h : conf ≤ 1) : (0.3 : ℚ) * max 0.2 conf ≤ 0.3 := by
  have h2 : max (0.2 : ℚ) conf ≤ 1 := max_le (by norm_num) h
  nlinarith

lemma tech_weight_eq (tb : Bool) :
    (0.7 : ℚ) * (if tb then 1 else 0.5) = if tb then 0.7 else 0.35 := by
  cases tb <;> norm_num

lemma fuse_pos (tb : Bool) (conf : ℚ) :
    (0 : ℚ) < (if tb then (0.7 : ℚ) else 0.35) + 0.3 * max 0.2 conf := by
  have h := news_weight_lb conf
  have h2 : (0.35 : ℚ) ≤ if tb then (0.7 : ℚ) else 0.35 := by
    cases tb <;> norm_num
  linarith

/-- The source fusion block computes exactly the claim-side fusion
algorithm: same signal, same (rounded) confidence, same normalized
score. -/
lemma fuseSignal_eq_fusionSpec (tb : Bool) (avg conf : ℚ) :
    (fuseSignal tb avg conf).1 = (fusionSpec tb avg conf).1 ∧
    round3 (fuseSignal tb avg conf).2.1 = (fusionSpec tb avg conf).2.1 ∧
    (fuseSignal tb avg conf).2.2 = (fusionSpec tb avg conf).2.2 := by
  unfold fuseSignal fusionSpec
  simp only [tech_weight_eq, if_pos (fuse_pos tb conf)]
  refine ⟨trivial, ?_, trivial⟩
  rw [apply_ite round3, round3_pointTwo]

/-- With a failed technical condition the fusion block yields HOLD with
confidence 0.2 (before rounding), whatever the sentiment. -/
lemma fuseSignal_false (avg conf : ℚ) :
    (fuseSignal false avg conf).1 = "HOLD" ∧
    (fuseSignal false avg conf).2.1 = 0.2 := by
  unfold fuseSignal
  simp [hold_ne_buy]

/-- With a satisfied technical condition and a news confidence in [0, 1]
the fusion block yields BUY, its confidence is the normalized score, and
the normalized score is at least 0.7. -/
lemma fuseSignal_true {conf : ℚ} (avg : ℚ) (hconf : conf ≤ 1) :
    (fuseSignal true avg conf).1 = "BUY" ∧
    (fuseSignal true avg conf).2.1 = (fuseSignal true avg conf).2.2 ∧
    0.7 ≤ (fuseSignal true avg conf).2.2 := by
  have hnw1 := news_weight_lb conf
  have hnw2 := news_weight_ub hconf
  have hns : (0 : ℚ) ≤ max 0 avg := le_max_left 0 avg
  have hguard : (0 : ℚ) < 0.7 + 0.3 * max 0.2 conf := by linarith
  have hnorm : (0.7 : ℚ) ≤
      (0.7 + 0.3 * max 0.2 conf * max 0 avg) /
        (0.7 + 0.3 * max 0.2 conf) := by
    rw [le_div_iff₀ hguard]
    nlinarith [mul_nonneg (by linarith : (0 : ℚ) ≤ 0.3 * max 0.2 conf) hns]
  unfold fuseSignal
  simp only [eq_self_iff_true, if_true, mul_one, one_mul, true_and,
    if_pos hguard]
  rw [if_pos (by linarith :
    (0.7 + 0.3 * max 0.2 conf * max 0 avg) /
      (0.7 + 0.3 * max 0.2 conf) ≥ 0.35)]
  refine ⟨rfl, ?_, hnorm⟩
  simp [buy_eq_buy]

/-- The normalized score always lies in [0, 1] when the sentiment input is
at most 1. -/
lemma fuseSignal_norm_bounds {avg : ℚ} (tb : Bool) (conf : ℚ)
    (havg : avg ≤ 1) :
    0 ≤ (fuseSignal tb avg conf).2.2 ∧ (fuseSignal tb avg conf).2.2 ≤ 1 := by
  have hnw1 := news_weight_lb conf
  have hns0 : (0 : ℚ) ≤ max 0 avg := le_max_left 0 avg
  have hns1 : max 0 avg ≤ 1 := max_le (by norm_num) havg
  have htw1 : (0.35 : ℚ) ≤ if tb then (0.7 : ℚ) else 0.35 := by
    cases tb <;> norm_num
  have htw2 : (if tb then (0.7 : ℚ) else 0.35) ≤ 0.7 := by
    cases tb <;> norm_num
  have hts0 : (0 : ℚ) ≤ if tb then (1 : ℚ) else 0 := by
    cases tb <;> norm_num
  have hts1 : (if tb then (1 : ℚ) else 0) ≤ 1 := by
    cases tb <;> norm_num
  have hguard := fuse_pos tb conf
  unfold fuseSignal
  simp only [tech_weight_eq, if_pos hguard]
  constructor
  · apply div_nonneg _ (le_of_lt hguard)
    nlinarith [mul_nonneg (by linarith : (0 : ℚ) ≤ 0.3 * max 0.2 conf) hns0]
  · rw [div_le_one hguard]
    nlinarith [mul_nonneg (by linarith : (0 : ℚ) ≤ 0.3 * max 0.2 conf) hns0]

/-- The fusion confidence (before rounding) is either the normalized score
or the constant 0.2. -/
lemma fuseSignal_conf_cases (tb : Bool) (avg conf : ℚ) :
    (fuseSignal tb avg conf).2.1 = (fuseSignal tb avg conf).2.2 ∨
    (fuseSignal tb avg conf).2.1 = 0.2 := by
  unfold fuseSignal
  by_cases h : (tb = true ∧
      (if (0.7 : ℚ) * (if tb then 1 else 0.5) + 0.3 * max 0.2 conf > 0 then
        ((0.7 : ℚ) * (if tb then 1 else 0.5) * (if tb then 1 else 0) +
          0.3 * max 0.2 conf * max 0 avg) /
          ((0.7 : ℚ) * (if tb then 1 else 0.5) + 0.3 * max 0.2 conf)
      else 0) ≥ 0.35)
  · left
    simp only [if_pos h, buy_eq_buy, if_true]
  · right
    simp only [if_neg h, hold_ne_buy, if_false]

/-- Case analysis of the news-sentiment `generate_signal`: either the
short-circuit result or the full aggregation result. -/
lemma news_result_cases {self : NewsSentimentStrategy} {arts : List Article}
    {nr : NewsResult}
    (h : NewsSentimentStrategy.generate_signal self arts = .ok nr) :
    (arts.length < self.min_articles ∧
      nr = ⟨"HOLD", 0.1, ⟨some ("not_enough_news"), arts.length, 0⟩⟩) ∨
    (self.min_articles ≤ arts.length ∧ ∃ avg,
      NewsSentimentStrategy.aggregate_sentiment arts = .ok avg ∧
      nr = ⟨if avg > 0 then "BUY" else "HOLD",
            round3 (min 1 (max 0 |avg|)), ⟨none, arts.length, round3 avg⟩⟩) := by
  unfold NewsSentimentStrategy.generate_signal at h
  split at h
  · next hlt =>
    left
    injection h with h2
    exact ⟨hlt, h2.symm⟩
  · next hge =>
    right
    refine ⟨le_of_not_lt hge, ?_⟩
    split at h
    · next e heq => exact Except.noConfusion h
    · next avg heq =>
      injection h with h2
      exact ⟨avg, heq, h2.symm⟩

lemma news_signal_shape {self : NewsSentimentStrategy} {arts : List Article}
    {nr : NewsResult}
    (h : NewsSentimentStrategy.generate_signal self arts = .ok nr) :
    nr.signal_type = "BUY" ∨ nr.signal_type = "HOLD" := by
  rcases news_result_cases h with ⟨_, rfl⟩ | ⟨_, avg, _, rfl⟩
  · right; rfl
  · dsimp only
    split
    · left; rfl
    · right; rfl

lemma news_confidence_bounds {self : NewsSentimentStrategy}
    {arts : List Article} {nr : NewsResult}
    (h : NewsSentimentStrategy.generate_signal self arts = .ok nr) :
    0 ≤ nr.confidence ∧ nr.confidence ≤ 1 := by
  rcases news_result_cases h with ⟨_, rfl⟩ | ⟨_, avg, _, rfl⟩
  · norm_num
  · dsimp only
    exact ⟨round3_nonneg (le_min (by norm_num) (le_max_left _ _)),
           round3_le_one (min_le_left _ _)⟩

lemma recency_weight_valid {h : ℚ} (hh : 0 ≤ h) :
    ∃ w, recency_weight h = .ok w ∧ 0 < w ∧ w ≤ 1 := by
  have hd : (0 : ℚ) < 1 + h / 8 := by
    have := div_nonneg hh (by norm_num : (0 : ℚ) ≤ 8)
    linarith
  refine ⟨max 0.1 (1 / (1 + h / 8)), ?_, ?_, ?_⟩
  · unfold recency_weight
    rw [if_neg (ne_of_gt hd)]
  · exact lt_of_lt_of_le (by norm_num) (le_max_left _ _)
  · apply max_le (by norm_num)
    rw [div_le_one hd]
    have := div_nonneg hh (by norm_num : (0 : ℚ) ≤ 8)
    linarith

lemma agg_step_valid {sf imf : FieldVal} {hrs : ℚ}
    (hv : validArticle ⟨sf, imf, hrs⟩ = true) :
    ∃ s i w, pyFloatOr sf 0 = .ok s ∧
      pyFloatOr imf 0.5 = .ok i ∧
      recency_weight hrs = .ok w ∧
      |s| ≤ 1 ∧ 0 ≤ i ∧ i ≤ 1 ∧ 0 < w ∧ w ≤ 1 := by
  rw [validArticle, Bool.and_eq_true, Bool.and_eq_true] at hv
  obtain ⟨⟨hs, hi⟩, hh⟩ := hv
  have hs2 : validSentField sf = true := hs
  have hi2 : validImpactField imf = true := hi
  have hh2 : decide ((0 : ℚ) ≤ hrs) = true := hh
  clear hs hi hh
  obtain ⟨w, hw, hw0, hw1⟩ := recency_weight_valid (of_decide_eq_true hh2)
  have hsent : ∃ s, pyFloatOr sf 0 = .ok s ∧ |s| ≤ 1 := by
    cases sf with
    | absent => exact ⟨0, rfl, by norm_num⟩
    | num q =>
      have hq := of_decide_eq_true hs2
      refine ⟨if q = 0 then 0 else q, rfl, ?_⟩
      by_cases h0 : q = 0
      · rw [if_pos h0]
        norm_num
      · rw [if_neg h0]
        exact abs_le.mpr ⟨hq.1, hq.2⟩
    | nonNumericStr =>
      exact Bool.noConfusion hs2
  have himp : ∃ i, pyFloatOr imf 0.5 = .ok i ∧ 0 ≤ i ∧ i ≤ 1 := by
    cases imf with
    | absent => exact ⟨0.5, rfl, by norm_num, by norm_num⟩
    | num q =>
      have hq := of_decide_eq_true hi2
      refine ⟨if q = 0 then 0.5 else q, rfl, ?_, ?_⟩
      · by_cases h0 : q = 0
        · rw [if_pos h0]
          norm_num
        · rw [if_neg h0]
          exact hq.1
      · by_cases h0 : q = 0
        · rw [if_pos h0]
          norm_num
        · rw [if_neg h0]
          exact hq.2
    | nonNumericStr =>
      exact Bool.noConfusion hi2
  obtain ⟨s, hsv, hsb⟩ := hsent
  obtain ⟨i, hiv, hi0, hi1⟩ := himp
  exact ⟨s, i, w, hsv, hiv, hw, hsb, hi0, hi1, hw0, hw1⟩

/-- On a list of data-model-valid articles, the accumulation loop never
raises and preserves the invariant `|weighted_sum| ≤ weight_total`. -/
lemma aggLoop_valid :
    ∀ (arts : List Article) (ws wt : ℚ), arts.all validArticle = true →
      |ws| ≤ wt →
      ∃ ws2 wt2, aggLoop arts ws wt = .ok (ws2, wt2) ∧ |ws2| ≤ wt2 := by
  intro arts
  induction arts with
  | nil => exact fun ws wt _ h => ⟨ws, wt, rfl, h⟩
  | cons a rest ih =>
    intro ws wt hall hinv
    rw [List.all_cons, Bool.and_eq_true] at hall
    obtain ⟨ha, hrest⟩ := hall
    obtain ⟨sf, imf, hrs⟩ := a
    obtain ⟨s, i, w, hs, hi, hw, hsb, hi0, hi1, hw0, hw1⟩ :=
      agg_step_valid ha
    have hiw0 : 0 ≤ i * w := mul_nonneg hi0 (le_of_lt hw0)
    have habs : |s * (i * w)| ≤ i * w := by
      rw [abs_mul, abs_of_nonneg hiw0]
      nlinarith [abs_nonneg s]
    have hstep : |ws + s * (i * w)| ≤ wt + i * w := by
      calc |ws + s * (i * w)| ≤ |ws| + |s * (i * w)| := abs_add _ _
        _ ≤ wt + i * w := by linarith
    simp only [aggLoop, hs, hi, hw]
    exact ih _ _ hrest hstep

/-- On data-model-valid articles the aggregation returns a sentiment in
[-1, 1]. -/
lemma aggregate_valid {arts : List Article}
    (hall : arts.all validArticle = true) :
    ∃ avg, NewsSentimentStrategy.aggregate_sentiment arts = .ok avg ∧
      -1 ≤ avg ∧ avg ≤ 1 := by
  unfold NewsSentimentStrategy.aggregate_sentiment
  by_cases he : arts.isEmpty
  · rw [if_pos he]
    exact ⟨0, rfl, by norm_num, by norm_num⟩
  · rw [if_neg he]
    obtain ⟨ws, wt, hloop, hinv⟩ :=
      aggLoop_valid arts 0 0 hall (by norm_num)
    have hb := abs_le.mp hinv
    by_cases hwt : wt > 0
    · refine ⟨ws / wt, ?_, ?_, ?_⟩
      · simp only [hloop]
        rw [if_pos hwt]
      · rw [le_div_iff₀ hwt]
        linarith [hb.1]
      · rw [div_le_one hwt]
        exact hb.2
    · refine ⟨0, ?_, by norm_num, by norm_num⟩
      simp only [hloop]
      rw [if_neg hwt]

/-- On data-model-valid articles the news result's reported
`avg_sentiment` lies in [-1, 1]. -/
lemma news_avg_valid_bounds {self : NewsSentimentStrategy}
    {arts : List Article} {nr : NewsResult}
    (hall : arts.all validArticle = true)
    (h : NewsSentimentStrategy.generate_signal self arts = .ok nr) :
    -1 ≤ nr.extra.avg_sentiment ∧ nr.extra.avg_sentiment ≤ 1 := by
  rcases news_result_cases h with ⟨_, rfl⟩ | ⟨_, avg, hagg, rfl⟩
  · dsimp only
    norm_num
  · obtain ⟨avg2, hagg2, hb1, hb2⟩ := aggregate_valid hall
    rw [hagg] at hagg2
    injection hagg2 with he
    subst he
    dsimp only
    exact ⟨round3_ge_negOne hb1, round3_le_one hb2⟩

/-- With enough candles and a successful news call, the RSI combo returns
exactly the fused result. -/
lemma rsi_combo_eq {self : NewsRSICombo} {candles : List Candle}
    {articles : List Article} {nr : NewsResult}
    (hlen : self.rsi_period + 1 ≤ candles.length)
    (hnews : NewsSentimentStrategy.generate_signal self.news_strategy
      articles = .ok nr) :
    NewsRSICombo.generate_signal self candles articles =
      .ok ⟨(fuseSignal
              (decide (compute_rsi (candles.map Candle.close)
                self.rsi_period < self.oversold))
              nr.extra.avg_sentiment nr.confidence).1,
           round3 (fuseSignal
              (decide (compute_rsi (candles.map Candle.close)
                self.rsi_period < self.oversold))
              nr.extra.avg_sentiment nr.confidence).2.1,
           ⟨none,
            some (round3 (fuseSignal
              (decide (compute_rsi (candles.map Candle.close)
                self.rsi_period < self.oversold))
              nr.extra.avg_sentiment nr.confidence).2.2),
            some (round2 (compute_rsi (candles.map Candle.close)
              self.rsi_period)),
            none, none, none, none, none, some nr⟩⟩ := by
  unfold NewsRSICombo.generate_signal
  rw [if_neg (not_lt.mpr hlen)]
  simp only [hnews]

/-- With enough candles, a successful highest-high computation and a
successful news call, the breakout combo returns exactly the fused
result. -/
lemma breakout_combo_eq {self : NewsBreakoutCombo} {candles : List Candle}
    {articles : List Article} {nr : NewsResult} {hh : ℚ}
    (hlen : self.lookback + 1 ≤ candles.length)
    (hhh : highest_high candles.dropLast self.lookback = .ok hh)
    (hnews : NewsSentimentStrategy.generate_signal self.news_strategy
      articles = .ok nr) :
    NewsBreakoutCombo.generate_signal self candles articles =
      .ok ⟨(fuseSignal
              (decide (((candles.getLast?).getD defaultCandle).close > hh))
              nr.extra.avg_sentiment nr.confidence).1,
           round3 (fuseSignal
              (decide (((candles.getLast?).getD defaultCandle).close > hh))
              nr.extra.avg_sentiment nr.confidence).2.1,
           ⟨none,
            some (round3 (fuseSignal
              (decide (((candles.getLast?).getD defaultCandle).close > hh))
              nr.extra.avg_sentiment nr.confidence).2.2),
            none, some ((candles.getLast?).getD defaultCandle).close,
            some hh, none, none, none, some nr⟩⟩ := by
  unfold NewsBreakoutCombo.generate_signal
  rw [if_neg (not_lt.mpr hlen)]
  simp only [hhh, hnews]

/-- With enough candles and successful moving-average, rolling-high and
news computations, the trend combo returns exactly the fused result. -/
lemma trend_combo_eq {self : NewsTrendMA200Combo} {candles : List Candle}
    {articles : List Article} {nr : NewsResult} {ma rh : ℚ}
    (hlen : self.ma_period + 20 ≤ candles.length)
    (hma : simple_ma (candles.map Candle.close) self.ma_period = .ok ma)
    (hrh : listMaxQ (sliceLastPy (candles.map Candle.close) 20) = .ok rh)
    (hnews : NewsSentimentStrategy.generate_signal self.news_strategy
      articles = .ok nr) :
    NewsTrendMA200Combo.generate_signal self candles articles =
      .ok ⟨(fuseSignal
              (decide (((candles.getLast?).getD defaultCandle).close > ma) &&
               decide (self.pullback_pct * 0.5 ≤
                  (if rh > 0 then
                    (rh - ((candles.getLast?).getD defaultCandle).close) / rh
                  else 0) ∧
                (if rh > 0 then
                    (rh - ((candles.getLast?).getD defaultCandle).close) / rh
                  else 0) ≤ self.pullback_pct))
              nr.extra.avg_sentiment nr.confidence).1,
           round3 (fuseSignal
              (decide (((candles.getLast?).getD defaultCandle).close > ma) &&
               decide (self.pullback_pct * 0.5 ≤
                  (if rh > 0 then
                    (rh - ((candles.getLast?).getD defaultCandle).close) / rh
                  else 0) ∧
                (if rh > 0 then
                    (rh - ((candles.getLast?).getD defaultCandle).close) / rh
                  else 0) ≤ self.pullback_pct))
              nr.extra.avg_sentiment nr.confidence).2.1,
           ⟨none,
            some (round3 (fuseSignal
              (decide (((candles.getLast?).getD defaultCandle).close > ma) &&
               decide (self.pullback_pct * 0.5 ≤
                  (if rh > 0 then
                    (rh - ((candles.getLast?).getD defaultCandle).close) / rh
                  else 0) ∧
                (if rh > 0 then
                    (rh - ((candles.getLast?).getD defaultCandle).close) / rh
                  else 0) ≤ self.pullback_pct))
              nr.extra.avg_sentiment nr.confidence).2.2),
            none, some ((candles.getLast?).getD defaultCandle).close,
            none, some (round2 ma), some rh,
            some (round3 (if rh > 0 then
                (rh - ((candles.getLast?).getD defaultCandle).close) / rh
              else 0)),
            some nr⟩⟩ := by
  unfold NewsTrendMA200Combo.generate_signal
  rw [if_neg (not_lt.mpr hlen)]
  simp only [hma, hrh, hnews]

/-- The fusion block's signal is always BUY or HOLD. -/
lemma fuse_signal_shape (tb : Bool) (avg conf : ℚ) :
    (fuseSignal tb avg conf).1 = "BUY" ∨
    (fuseSignal tb avg conf).1 = "HOLD" := by
  unfold fuseSignal
  dsimp only
  exact ite_eq_or_eq _ _ _

/-- Any successful RSI-combo result is the short-circuit result or a fused
result built from a successful news call. -/
lemma rsi_combo_ok_cases {self : NewsRSICombo} {candles : List Candle}
    {articles : List Article} {r : ComboResult}
    (h : NewsRSICombo.generate_signal self candles articles = .ok r) :
    r = ⟨"HOLD", 0.1, comboShortExtra⟩ ∨
    ∃ tb nr,
      NewsSentimentStrategy.generate_signal self.news_strategy articles =
        .ok nr ∧
      r.signal_type = (fuseSignal tb nr.extra.avg_sentiment nr.confidence).1 ∧
      r.confidence =
        round3 (fuseSignal tb nr.extra.avg_sentiment nr.confidence).2.1 := by
  unfold NewsRSICombo.generate_signal at h
  split at h
  · left
    injection h with h2
    exact h2.symm
  · right
    split at h
    · exact Except.noConfusion h
    · next nr heq =>
      injection h with h2
      exact ⟨_, nr, heq, by rw [← h2], by rw [← h2]⟩

/-- Any successful breakout-combo result is the short-circuit result or a
fused result built from a successful news call. -/
lemma breakout_combo_ok_cases {self : NewsBreakoutCombo}
    {candles : List Candle} {articles : List Article} {r : ComboResult}
    (h : NewsBreakoutCombo.generate_signal self candles articles = .ok r) :
    r = ⟨"HOLD", 0.1, comboShortExtra⟩ ∨
    ∃ tb nr,
      NewsSentimentStrategy.generate_signal self.news_strategy articles =
        .ok nr ∧
      r.signal_type = (fuseSignal tb nr.extra.avg_sentiment nr.confidence).1 ∧
      r.confidence =
        round3 (fuseSignal tb nr.extra.avg_sentiment nr.confidence).2.1 := by
  unfold NewsBreakoutCombo.generate_signal at h
  split at h
  · left
    injection h with h2
    exact h2.symm
  · split at h
    · exact Except.noConfusion h
    · right
      split at h
      · exact Except.noConfusion h
      · next nr heq =>
        injection h with h2
        exact ⟨_, nr, heq, by rw [← h2], by rw [← h2]⟩

/-- Any successful trend-combo result is the short-circuit result or a
fused result built from a successful news call. -/
lemma trend_combo_ok_cases {self : NewsTrendMA200Combo}
    {candles : List Candle} {articles : List Article} {r : ComboResult}
    (h : NewsTrendMA200Combo.generate_signal self candles articles = .ok r) :
    r = ⟨"HOLD", 0.1, comboShortExtra⟩ ∨
    ∃ tb nr,
      NewsSentimentStrategy.generate_signal self.news_strategy articles =
        .ok nr ∧
      r.signal_type = (fuseSignal tb nr.extra.avg_sentiment nr.confidence).1 ∧
      r.confidence =
        round3 (fuseSignal tb nr.extra.avg_sentiment nr.confidence).2.1 := by
  unfold NewsTrendMA200Combo.generate_signal at h
  split at h
  · left
    injection h with h2
    exact h2.symm
  · dsimp only at h
    cases hma : simple_ma (List.map Candle.close candles) self.ma_period with
    | error e =>
      rw [hma] at h
      dsimp only at h
      exact Except.noConfusion h
    | ok ma =>
      rw [hma] at h
      dsimp only at h
      cases hrh : listMaxQ (sliceLastPy (List.map Candle.close candles) 20) with
      | error e =>
        rw [hrh] at h
        dsimp only at h
        exact Except.noConfusion h
      | ok rh =>
        rw [hrh] at h
        dsimp only at h
        cases hnews : NewsSentimentStrategy.generate_signal
            self.news_strategy articles with
        | error e =>
          rw [hnews] at h
          dsimp only at h
          exact Except.noConfusion h
        | ok nr =>
          rw [hnews] at h
          dsimp only at h
          right
          injection h with h2
          exact ⟨_, nr, rfl, by rw [← h2], by rw [← h2]⟩

/-- The rounded fusion confidence lies in [0, 1] whenever the sentiment
input is at most 1. -/
lemma fuse_round_conf_bounds {avg : ℚ} (tb : Bool) (conf : ℚ)
    (havg : avg ≤ 1) :
    0 ≤ round3 (fuseSignal tb avg conf).2.1 ∧
    round3 (fuseSignal tb avg conf).2.1 ≤ 1 := by
  rcases fuseSignal_conf_cases tb avg conf with hc | hc <;> rw [hc]
  · obtain ⟨h0, h1⟩ := fuseSignal_norm_bounds tb conf havg
    exact ⟨round3_nonneg h0, round3_le_one h1⟩
  · rw [round3_pointTwo]
    norm_num

/-! ### Claim theorems -/

/-- Claim C1: for every symbol configuration, candle list and news-article
list, the `signal_type` of the `StrategyResult` returned by
`generate_signal` of each of the three combination strategies
(`NewsRSICombo`, `NewsBreakoutCombo`, `NewsTrendMA200Combo`) and of the
news-sentiment strategy is either BUY or HOLD; on no execution path is
SELL produced. -/
theorem signal_type_never_sell
    (ns : NewsSentimentStrategy) (rs : NewsRSICombo)
    (bs : NewsBreakoutCombo) (ts : NewsTrendMA200Combo)
    (candles : List Candle) (articles : List Article) :
    onOk (NewsSentimentStrategy.generate_signal ns articles)
      (fun r => r.signal_type = "BUY" ∨ r.signal_type = "HOLD") ∧
    onOk (NewsRSICombo.generate_signal rs candles articles)
      (fun r => r.signal_type = "BUY" ∨ r.signal_type = "HOLD") ∧
    onOk (NewsBreakoutCombo.generate_signal bs candles articles)
      (fun r => r.signal_type = "BUY" ∨ r.signal_type = "HOLD") ∧
    onOk (NewsTrendMA200Combo.generate_signal ts candles articles)
      (fun r => r.signal_type = "BUY" ∨ r.signal_type = "HOLD") := by
  refine ⟨?_, ?_, ?_, ?_⟩
  · unfold onOk
    split
    · next r heq => exact news_signal_shape heq
    · trivial
  · unfold onOk
    split
    · next r heq =>
      rcases rsi_combo_ok_cases heq with rfl | ⟨tb, nr, hnews, hsig, hconf⟩
      · right
        rfl
      · rw [hsig]
        exact fuse_signal_shape tb _ _
    · trivial
  · unfold onOk
    split
    · next r heq =>
      rcases breakout_combo_ok_cases heq with
        rfl | ⟨tb, nr, hnews, hsig, hconf⟩
      · right
        rfl
      · rw [hsig]
        exact fuse_signal_shape tb _ _
    · trivial
  · unfold onOk
    split
    · next r heq =>
      rcases trend_combo_ok_cases heq with
        rfl | ⟨tb, nr, hnews, hsig, hconf⟩
      · right
        rfl
      · rw [hsig]
        exact fuse_signal_shape tb _ _
    · trivial

/-- Claim C2: for every configuration, candle list and list of
data-model-valid news articles, the `confidence` of the result returned
by `generate_signal` of each strategy lies in [0, 1]. -/
theorem confidence_in_unit_interval
    (ns : NewsSentimentStrategy) (rs : NewsRSICombo)
    (bs : NewsBreakoutCombo) (ts : NewsTrendMA200Combo)
    (candles : List Candle) (articles : List Article)
    (hall : articles.all validArticle = true) :
    onOk (NewsSentimentStrategy.generate_signal ns articles)
      (fun r => 0 ≤ r.confidence ∧ r.confidence ≤ 1) ∧
    onOk (NewsRSICombo.generate_signal rs candles articles)
      (fun r => 0 ≤ r.confidence ∧ r.confidence ≤ 1) ∧
    onOk (NewsBreakoutCombo.generate_signal bs candles articles)
      (fun r => 0 ≤ r.confidence ∧ r.confidence ≤ 1) ∧
    onOk (NewsTrendMA200Combo.generate_signal ts candles articles)
      (fun r => 0 ≤ r.confidence ∧ r.confidence ≤ 1) := by
  refine ⟨?_, ?_, ?_, ?_⟩
  · unfold onOk
    split
    · next r heq => exact news_confidence_bounds heq
    · trivial
  · unfold onOk
    split
    · next r heq =>
      rcases rsi_combo_ok_cases heq with rfl | ⟨tb, nr, hnews, hsig, hconf⟩
      · norm_num
      · rw [hconf]
        exact fuse_round_conf_bounds tb _ (news_avg_valid_bounds hall hnews).2
    · trivial
  · unfold onOk
    split
    · next r heq =>
      rcases breakout_combo_ok_cases heq with
        rfl | ⟨tb, nr, hnews, hsig, hconf⟩
      · norm_num
      · rw [hconf]
        exact fuse_round_conf_bounds tb _ (news_avg_valid_bounds hall hnews).2
    · trivial
  · unfold onOk
    split
    · next r heq =>
      rcases trend_combo_ok_cases heq with
        rfl | ⟨tb, nr, hnews, hsig, hconf⟩
      · norm_num
      · rw [hconf]
        exact fuse_round_conf_bounds tb _ (news_avg_valid_bounds hall hnews).2
    · trivial

/-- Witness for claim C2 at a concrete valid input: two in-range articles,
an empty candle list, and the default configurations. -/
theorem confidence_in_unit_interval_witness :
    ([(⟨.num (1/2), .num (1/2), 0⟩ : Article),
      ⟨.num 1, .absent, 4⟩].all validArticle = true) ∧
    (onOk (NewsSentimentStrategy.generate_signal ⟨24, 2⟩
        [⟨.num (1/2), .num (1/2), 0⟩, ⟨.num 1, .absent, 4⟩])
      (fun r => 0 ≤ r.confidence ∧ r.confidence ≤ 1) ∧
     onOk (NewsRSICombo.generate_signal ⟨⟨24, 2⟩, 14, 30⟩ []
        [⟨.num (1/2), .num (1/2), 0⟩, ⟨.num 1, .absent, 4⟩])
      (fun r => 0 ≤ r.confidence ∧ r.confidence ≤ 1) ∧
     onOk (NewsBreakoutCombo.generate_signal ⟨⟨24, 2⟩, 20⟩ []
        [⟨.num (1/2), .num (1/2), 0⟩, ⟨.num 1, .absent, 4⟩])
      (fun r => 0 ≤ r.confidence ∧ r.confidence ≤ 1) ∧
     onOk (NewsTrendMA200Combo.generate_signal ⟨⟨24, 2⟩, 200, 1/20⟩ []
        [⟨.num (1/2), .num (1/2), 0⟩, ⟨.num 1, .absent, 4⟩])
      (fun r => 0 ≤ r.confidence ∧ r.confidence ≤ 1)) :=
  ⟨by norm_num [validArticle, validSentField, validImpactField],
   confidence_in_unit_interval ⟨24, 2⟩ ⟨⟨24, 2⟩, 14, 30⟩ ⟨⟨24, 2⟩, 20⟩
     ⟨⟨24, 2⟩, 200, 1/20⟩ [] _
     (by norm_num [validArticle, validSentField, validImpactField])⟩

/-- Claim C4: each combination variant returns HOLD with confidence 0.1
and `extra = {reason: "not_enough_candles"}` when the candle list is
shorter than its minimum history (`rsi_period+1`, `lookback+1`,
`ma_period+20` respectively), and in that case the result does not depend
on the news data (the Sentiment Aggregator is not queried). -/
theorem insufficient_candles_short_circuit
    (rs : NewsRSICombo) (bs : NewsBreakoutCombo) (ts : NewsTrendMA200Combo)
    (candles : List Candle) (articles articles2 : List Article) :
    (candles.length < rs.rsi_period + 1 →
      NewsRSICombo.generate_signal rs candles articles =
        .ok ⟨"HOLD", 0.1, ⟨some ("not_enough_candles"), none, none, none,
          none, none, none, none, none⟩⟩ ∧
      NewsRSICombo.generate_signal rs candles articles =
        NewsRSICombo.generate_signal rs candles articles2) ∧
    (candles.length < bs.lookback + 1 →
      NewsBreakoutCombo.generate_signal bs candles articles =
        .ok ⟨"HOLD", 0.1, ⟨some ("not_enough_candles"), none, none, none,
          none, none, none, none, none⟩⟩ ∧
      NewsBreakoutCombo.generate_signal bs candles articles =
        NewsBreakoutCombo.generate_signal bs candles articles2) ∧
    (candles.length < ts.ma_period + 20 →
      NewsTrendMA200Combo.generate_signal ts candles articles =
        .ok ⟨"HOLD", 0.1, ⟨some ("not_enough_candles"), none, none, none,
          none, none, none, none, none⟩⟩ ∧
      NewsTrendMA200Combo.generate_signal ts candles articles =
        NewsTrendMA200Combo.generate_signal ts candles articles2) := by
  refine ⟨fun h => ⟨?_, ?_⟩, fun h => ⟨?_, ?_⟩, fun h => ⟨?_, ?_⟩⟩
  · unfold NewsRSICombo.generate_signal
    rw [if_pos h]
    rfl
  · unfold NewsRSICombo.generate_signal
    rw [if_pos h, if_pos h]
  · unfold NewsBreakoutCombo.generate_signal
    rw [if_pos h]
    rfl
  · unfold NewsBreakoutCombo.generate_signal
    rw [if_pos h, if_pos h]
  · unfold NewsTrendMA200Combo.generate_signal
    rw [if_pos h]
    rfl
  · unfold NewsTrendMA200Combo.generate_signal
    rw [if_pos h, if_pos h]

/-- Witness for claim C4: an empty candle list with the default
configurations; the second article list even contains an article that
would make the aggregation raise, yet the result is unchanged. -/
theorem insufficient_candles_short_circuit_witness :
    (([] : List Candle).length < 14 + 1 ∧
      NewsRSICombo.generate_signal ⟨⟨24, 2⟩, 14, 30⟩ [] [] =
        .ok ⟨"HOLD", 0.1, ⟨some ("not_enough_candles"), none, none, none,
          none, none, none, none, none⟩⟩ ∧
      NewsRSICombo.generate_signal ⟨⟨24, 2⟩, 14, 30⟩ [] [] =
        NewsRSICombo.generate_signal ⟨⟨24, 2⟩, 14, 30⟩ []
          [⟨.nonNumericStr, .absent, -8⟩]) ∧
    (([] : List Candle).length < 20 + 1 ∧
      NewsBreakoutCombo.generate_signal ⟨⟨24, 2⟩, 20⟩ [] [] =
        .ok ⟨"HOLD", 0.1, ⟨some ("not_enough_candles"), none, none, none,
          none, none, none, none, none⟩⟩ ∧
      NewsBreakoutCombo.generate_signal ⟨⟨24, 2⟩, 20⟩ [] [] =
        NewsBreakoutCombo.generate_signal ⟨⟨24, 2⟩, 20⟩ []
          [⟨.nonNumericStr, .absent, -8⟩]) ∧
    (([] : List Candle).length < 200 + 20 ∧
      NewsTrendMA200Combo.generate_signal ⟨⟨24, 2⟩, 200, 1/20⟩ [] [] =
        .ok ⟨"HOLD", 0.1, ⟨some ("not_enough_candles"), none, none, none,
          none, none, none, none, none⟩⟩ ∧
      NewsTrendMA200Combo.generate_signal ⟨⟨24, 2⟩, 200, 1/20⟩ [] [] =
        NewsTrendMA200Combo.generate_signal ⟨⟨24, 2⟩, 200, 1/20⟩ []
          [⟨.nonNumericStr, .absent, -8⟩]) := by
  have h := insufficient_candles_short_circuit ⟨⟨24, 2⟩, 14, 30⟩
    ⟨⟨24, 2⟩, 20⟩ ⟨⟨24, 2⟩, 200, 1/20⟩ [] []
    [⟨.nonNumericStr, .absent, -8⟩]
  exact ⟨⟨by decide, (h.1 (by decide)).1, (h.1 (by decide)).2⟩,
         ⟨by decide, (h.2.1 (by decide)).1, (h.2.1 (by decide)).2⟩,
         ⟨by decide, (h.2.2 (by decide)).1, (h.2.2 (by decide)).2⟩⟩

/-- Claim C10: the recency-weight computation is not total — an article
published exactly 8 hours in the future makes `hours_ago = -8`, the
denominator `1 + hours_ago/8` zero, and `_aggregate_sentiment` divide by
zero (also surfacing through `generate_signal`); only the total-weight
division is guarded, as the third conjunct shows on a zero-total-weight
input. -/
theorem recency_division_by_zero :
    NewsSentimentStrategy.aggregate_sentiment [⟨.num 1, .num 1, -8⟩] =
      .error .zeroDivisionError ∧
    NewsSentimentStrategy.generate_signal ⟨24, 1⟩ [⟨.num 1, .num 1, -8⟩] =
      .error .zeroDivisionError ∧
    NewsSentimentStrategy.aggregate_sentiment
      [⟨.num 1, .num 1, 0⟩, ⟨.num 1, .num (-1), 0⟩] = .ok 0 := by
  norm_num [NewsSentimentStrategy.generate_signal,
    NewsSentimentStrategy.aggregate_sentiment, aggLoop, pyFloatOr,
    recency_weight, max_def, min_def]

lemma fusionSpec_false (avg conf : ℚ) :
    (fusionSpec false avg conf).1 = "HOLD" ∧
    (fusionSpec false avg conf).2.1 = 0.2 := by
  unfold fusionSpec
  simp [hold_ne_buy]

/-- Claim C3: once the candle-history requirement is met (and the
intermediate indicator and news computations return), each combination
variant computes its result exactly by the claim's shared fusion
algorithm (`fusionSpec`): signal BUY exactly when the technical condition
holds and the normalized score is at least 0.35, confidence the rounded
normalized score on BUY and 0.2 on HOLD; in particular a failed technical
condition forces HOLD with confidence 0.2 for every sentiment value. -/
theorem combos_follow_fusion_spec
    (rs : NewsRSICombo) (bs : NewsBreakoutCombo) (ts : NewsTrendMA200Combo)
    (candles : List Candle) (articles : List Article) (nr : NewsResult)
    (hh ma rh avg conf : ℚ) :
    (rs.rsi_period + 1 ≤ candles.length →
      NewsSentimentStrategy.generate_signal rs.news_strategy articles =
        .ok nr →
      NewsRSICombo.generate_signal rs candles articles =
        .ok ⟨(fusionSpec (decide (compute_rsi (candles.map Candle.close)
                rs.rsi_period < rs.oversold))
                nr.extra.avg_sentiment nr.confidence).1,
             (fusionSpec (decide (compute_rsi (candles.map Candle.close)
                rs.rsi_period < rs.oversold))
                nr.extra.avg_sentiment nr.confidence).2.1,
             ⟨none,
              some (round3 (fusionSpec
                (decide (compute_rsi (candles.map Candle.close)
                  rs.rsi_period < rs.oversold))
                nr.extra.avg_sentiment nr.confidence).2.2),
              some (round2 (compute_rsi (candles.map Candle.close)
                rs.rsi_period)),
              none, none, none, none, none, some nr⟩⟩) ∧
    (bs.lookback + 1 ≤ candles.length →
      highest_high candles.dropLast bs.lookback = .ok hh →
      NewsSentimentStrategy.generate_signal bs.news_strategy articles =
        .ok nr →
      NewsBreakoutCombo.generate_signal bs candles articles =
        .ok ⟨(fusionSpec
                (decide (((candles.getLast?).getD defaultCandle).close > hh))
                nr.extra.avg_sentiment nr.confidence).1,
             (fusionSpec
                (decide (((candles.getLast?).getD defaultCandle).close > hh))
                nr.extra.avg_sentiment nr.confidence).2.1,
             ⟨none,
              some (round3 (fusionSpec
                (decide (((candles.getLast?).getD defaultCandle).close > hh))
                nr.extra.avg_sentiment nr.confidence).2.2),
              none, some ((candles.getLast?).getD defaultCandle).close,
              some hh, none, none, none, some nr⟩⟩) ∧
    (ts.ma_period + 20 ≤ candles.length →
      simple_ma (candles.map Candle.close) ts.ma_period = .ok ma →
      listMaxQ (sliceLastPy (candles.map Candle.close) 20) = .ok rh →
      NewsSentimentStrategy.generate_signal ts.news_strategy articles =
        .ok nr →
      NewsTrendMA200Combo.generate_signal ts candles articles =
        .ok ⟨(fusionSpec
                (decide (((candles.getLast?).getD defaultCandle).close > ma)
                  && decide (ts.pullback_pct * 0.5 ≤
                      (if rh > 0 then
                        (rh - ((candles.getLast?).getD
                          defaultCandle).close) / rh
                      else 0) ∧
                    (if rh > 0 then
                        (rh - ((candles.getLast?).getD
                          defaultCandle).close) / rh
                      else 0) ≤ ts.pullback_pct))
                nr.extra.avg_sentiment nr.confidence).1,
             (fusionSpec
                (decide (((candles.getLast?).getD defaultCandle).close > ma)
                  && decide (ts.pullback_pct * 0.5 ≤
                      (if rh > 0 then
                        (rh - ((candles.getLast?).getD
                          defaultCandle).close) / rh
                      else 0) ∧
                    (if rh > 0 then
                        (rh - ((candles.getLast?).getD
                          defaultCandle).close) / rh
                      else 0) ≤ ts.pullback_pct))
                nr.extra.avg_sentiment nr.confidence).2.1,
             ⟨none,
              some (round3 (fusionSpec
                (decide (((candles.getLast?).getD defaultCandle).close > ma)
                  && decide (ts.pullback_pct * 0.5 ≤
                      (if rh > 0 then
                        (rh - ((candles.getLast?).getD
                          defaultCandle).close) / rh
                      else 0) ∧
                    (if rh > 0 then
                        (rh - ((candles.getLast?).getD
                          defaultCandle).close) / rh
                      else 0) ≤ ts.pullback_pct))
                nr.extra.avg_sentiment nr.confidence).2.2),
              none, some ((candles.getLast?).getD defaultCandle).close,
              none, some (round2 ma), some rh,
              some (round3 (if rh > 0 then
                  (rh - ((candles.getLast?).getD defaultCandle).close) / rh
                else 0)),
              some nr⟩⟩) ∧
    ((fusionSpec false avg conf).1 = "HOLD" ∧
      (fusionSpec false avg conf).2.1 = 0.2) := by
  refine ⟨fun hlen hnews => ?_, fun hlen hhh hnews => ?_,
    fun hlen hma hrh hnews => ?_, fusionSpec_false avg conf⟩
  · rw [rsi_combo_eq hlen hnews]
    obtain ⟨e1, e2, e3⟩ := fuseSignal_eq_fusionSpec
      (decide (compute_rsi (candles.map Candle.close)
        rs.rsi_period < rs.oversold)) nr.extra.avg_sentiment nr.confidence
    rw [e1, e2, e3]
  · rw [breakout_combo_eq hlen hhh hnews]
    obtain ⟨e1, e2, e3⟩ := fuseSignal_eq_fusionSpec
      (decide (((candles.getLast?).getD defaultCandle).close > hh))
      nr.extra.avg_sentiment nr.confidence
    rw [e1, e2, e3]
  · rw [trend_combo_eq hlen hma hrh hnews]
    obtain ⟨e1, e2, e3⟩ := fuseSignal_eq_fusionSpec
      (decide (((candles.getLast?).getD defaultCandle).close > ma)
        && decide (ts.pullback_pct * 0.5 ≤
            (if rh > 0 then
              (rh - ((candles.getLast?).getD defaultCandle).close) / rh
            else 0) ∧
          (if rh > 0 then
              (rh - ((candles.getLast?).getD defaultCandle).close) / rh
            else 0) ≤ ts.pullback_pct))
      nr.extra.avg_sentiment nr.confidence
    rw [e1, e2, e3]

/-- Witness for claim C3: concrete two-candle scenarios for the RSI and
breakout variants (technical condition true) and a 21-candle scenario for
the trend variant (technical condition false), with an empty news list
accepted by a zero-minimum configuration. -/
theorem combos_follow_fusion_spec_witness :
    (1 + 1 ≤ ([⟨"", 0, 0, 0, 2, 0⟩,
      ⟨"", 0, 0, 0, 1, 0⟩] : List Candle).length) ∧
    (NewsSentimentStrategy.generate_signal ⟨24, 0⟩ [] =
      .ok ⟨"HOLD", 0, ⟨none, 0, 0⟩⟩) ∧
    (NewsRSICombo.generate_signal ⟨⟨24, 0⟩, 1, 30⟩
        [⟨"", 0, 0, 0, 2, 0⟩, ⟨"", 0, 0, 0, 1, 0⟩] [] =
      .ok ⟨(fusionSpec (decide (compute_rsi
              (([⟨"", 0, 0, 0, 2, 0⟩,
                 ⟨"", 0, 0, 0, 1, 0⟩] : List Candle).map Candle.close)
              1 < 30)) 0 0).1,
           (fusionSpec (decide (compute_rsi
              (([⟨"", 0, 0, 0, 2, 0⟩,
                 ⟨"", 0, 0, 0, 1, 0⟩] : List Candle).map Candle.close)
              1 < 30)) 0 0).2.1,
           ⟨none,
            some (round3 (fusionSpec (decide (compute_rsi
              (([⟨"", 0, 0, 0, 2, 0⟩,
                 ⟨"", 0, 0, 0, 1, 0⟩] : List Candle).map Candle.close)
              1 < 30)) 0 0).2.2),
            some (round2 (compute_rsi
              (([⟨"", 0, 0, 0, 2, 0⟩,
                 ⟨"", 0, 0, 0, 1, 0⟩] : List Candle).map Candle.close) 1)),
            none, none, none, none, none,
            some ⟨"HOLD", 0, ⟨none, 0, 0⟩⟩⟩⟩) ∧
    (highest_high (([⟨"", 0, 1, 0, 1, 0⟩,
        ⟨"", 0, 2, 0, 2, 0⟩] : List Candle).dropLast) 1 = .ok 1) ∧
    (NewsBreakoutCombo.generate_signal ⟨⟨24, 0⟩, 1⟩
        [⟨"", 0, 1, 0, 1, 0⟩, ⟨"", 0, 2, 0, 2, 0⟩] [] =
      .ok ⟨(fusionSpec (decide ((2 : ℚ) > 1)) 0 0).1,
           (fusionSpec (decide ((2 : ℚ) > 1)) 0 0).2.1,
           ⟨none, some (round3 (fusionSpec (decide ((2 : ℚ) > 1)) 0 0).2.2),
            none, some 2, some 1, none, none, none,
            some ⟨"HOLD", 0, ⟨none, 0, 0⟩⟩⟩⟩) ∧
    (simple_ma ((List.replicate 21
      (⟨"", 0, 1, 0, 1, 0⟩ : Candle)).map Candle.close) 1 = .ok 1) ∧
    (listMaxQ (sliceLastPy ((List.replicate 21
      (⟨"", 0, 1, 0, 1, 0⟩ : Candle)).map Candle.close) 20) = .ok 1) ∧
    (NewsTrendMA200Combo.generate_signal ⟨⟨24, 0⟩, 1, 1/20⟩
        (List.replicate 21 ⟨"", 0, 1, 0, 1, 0⟩) [] =
      .ok ⟨(fusionSpec (decide ((1 : ℚ) > 1) &&
              decide ((1/20 : ℚ) * 0.5 ≤
                  (if (1 : ℚ) > 0 then ((1 : ℚ) - 1) / 1 else 0) ∧
                (if (1 : ℚ) > 0 then ((1 : ℚ) - 1) / 1 else 0) ≤ 1/20))
              0 0).1,
           (fusionSpec (decide ((1 : ℚ) > 1) &&
              decide ((1/20 : ℚ) * 0.5 ≤
                  (if (1 : ℚ) > 0 then ((1 : ℚ) - 1) / 1 else 0) ∧
                (if (1 : ℚ) > 0 then ((1 : ℚ) - 1) / 1 else 0) ≤ 1/20))
              0 0).2.1,
           ⟨none,
            some (round3 (fusionSpec (decide ((1 : ℚ) > 1) &&
              decide ((1/20 : ℚ) * 0.5 ≤
                  (if (1 : ℚ) > 0 then ((1 : ℚ) - 1) / 1 else 0) ∧
                (if (1 : ℚ) > 0 then ((1 : ℚ) - 1) / 1 else 0) ≤ 1/20))
              0 0).2.2),
            none, some 1, none, some (round2 1), some 1,
            some (round3 (if (1 : ℚ) > 0 then ((1 : ℚ) - 1) / 1 else 0)),
            some ⟨"HOLD", 0, ⟨none, 0, 0⟩⟩⟩⟩) := by
  have hn : NewsSentimentStrategy.generate_signal ⟨24, 0⟩ [] =
      .ok ⟨"HOLD", 0, ⟨none, 0, 0⟩⟩ := by
    norm_num [NewsSentimentStrategy.generate_signal,
      NewsSentimentStrategy.aggregate_sentiment, round3, round_eq,
      max_def, min_def, abs]
  have hhh : highest_high (([⟨"", 0, 1, 0, 1, 0⟩,
      ⟨"", 0, 2, 0, 2, 0⟩] : List Candle).dropLast) 1 = .ok 1 := by
    norm_num [highest_high, sliceLastPy, listMaxQ, List.dropLast]
  have hma : simple_ma ((List.replicate 21
      (⟨"", 0, 1, 0, 1, 0⟩ : Candle)).map Candle.close) 1 = .ok 1 := by
    norm_num [simple_ma, sliceLastPy, List.replicate]
  have hrh : listMaxQ (sliceLastPy ((List.replicate 21
      (⟨"", 0, 1, 0, 1, 0⟩ : Candle)).map Candle.close) 20) = .ok 1 := by
    norm_num [listMaxQ, sliceLastPy, List.replicate, max_self]
  refine ⟨by decide, hn, ?_, hhh, ?_, hma, hrh, ?_⟩
  · exact (combos_follow_fusion_spec ⟨⟨24, 0⟩, 1, 30⟩ ⟨⟨24, 0⟩, 1⟩
      ⟨⟨24, 0⟩, 1, 1/20⟩ [⟨"", 0, 0, 0, 2, 0⟩, ⟨"", 0, 0, 0, 1, 0⟩] []
      ⟨"HOLD", 0, ⟨none, 0, 0⟩⟩ 1 1 1 0 0).1 (by decide) hn
  · exact (combos_follow_fusion_spec ⟨⟨24, 0⟩, 1, 30⟩ ⟨⟨24, 0⟩, 1⟩
      ⟨⟨24, 0⟩, 1, 1/20⟩ [⟨"", 0, 1, 0, 1, 0⟩, ⟨"", 0, 2, 0, 2, 0⟩] []
      ⟨"HOLD", 0, ⟨none, 0, 0⟩⟩ 1 1 1 0 0).2.1 (by decide) hhh hn
  · exact (combos_follow_fusion_spec ⟨⟨24, 0⟩, 1, 30⟩ ⟨⟨24, 0⟩, 1⟩
      ⟨⟨24, 0⟩, 1, 1/20⟩ (List.replicate 21 ⟨"", 0, 1, 0, 1, 0⟩) []
      ⟨"HOLD", 0, ⟨none, 0, 0⟩⟩ 1 1 1 0 0).2.2.1 (by decide) hma hrh hn

/-- When the fusion block is driven by the decision of a proposition `c`
and a news confidence in [0, 1]: the fused signal is BUY exactly when `c`
holds, and in that case both the rounded confidence and the rounded
normalized score are at least 0.7. -/
lemma fused_result_props (c : Prop) [Decidable c] {tb : Bool}
    (hc : tb = decide c) {nr : NewsResult}
    (hconf1 : nr.confidence ≤ 1) :
    (((fuseSignal tb nr.extra.avg_sentiment nr.confidence).1 = "BUY") ↔ c) ∧
    (c → 0.7 ≤ round3
        (fuseSignal tb nr.extra.avg_sentiment nr.confidence).2.1 ∧
      0.7 ≤ round3
        (fuseSignal tb nr.extra.avg_sentiment nr.confidence).2.2) := by
  subst hc
  by_cases h : c
  · rw [decide_eq_true h]
    obtain ⟨h1, h2, h3⟩ := fuseSignal_true nr.extra.avg_sentiment hconf1
    constructor
    · rw [h1]
      exact iff_of_true rfl h
    · intro _
      rw [h2]
      exact ⟨round3_ge_pointSeven h3, round3_ge_pointSeven h3⟩
  · rw [decide_eq_false h]
    obtain ⟨h1, h2⟩ := fuseSignal_false nr.extra.avg_sentiment nr.confidence
    constructor
    · rw [h1]
      exact iff_of_false (by simp) h
    · exact fun hcc => absurd hcc h

/-- Claim C9: with sufficient candle history (and returning intermediate
computations), each combination variant signals BUY exactly when its
technical condition holds — the 0.35 threshold never decides — and every
BUY result carries confidence at least 0.7, with a reported normalized
score of at least 0.7. -/
theorem buy_iff_tech_with_high_confidence
    (rs : NewsRSICombo) (bs : NewsBreakoutCombo) (ts : NewsTrendMA200Combo)
    (candles : List Candle) (articles : List Article) (nr : NewsResult)
    (hh ma rh : ℚ) :
    (rs.rsi_period + 1 ≤ candles.length →
      NewsSentimentStrategy.generate_signal rs.news_strategy articles =
        .ok nr →
      ∀ r, NewsRSICombo.generate_signal rs candles articles = .ok r →
        ((r.signal_type = "BUY" ↔
          compute_rsi (candles.map Candle.close) rs.rsi_period <
            rs.oversold) ∧
         (compute_rsi (candles.map Candle.close) rs.rsi_period <
            rs.oversold →
          0.7 ≤ r.confidence ∧
          ∀ n, r.extra.normalized_score = some n → 0.7 ≤ n))) ∧
    (bs.lookback + 1 ≤ candles.length →
      highest_high candles.dropLast bs.lookback = .ok hh →
      NewsSentimentStrategy.generate_signal bs.news_strategy articles =
        .ok nr →
      ∀ r, NewsBreakoutCombo.generate_signal bs candles articles = .ok r →
        ((r.signal_type = "BUY" ↔
          ((candles.getLast?).getD defaultCandle).close > hh) ∧
         (((candles.getLast?).getD defaultCandle).close > hh →
          0.7 ≤ r.confidence ∧
          ∀ n, r.extra.normalized_score = some n → 0.7 ≤ n))) ∧
    (ts.ma_period + 20 ≤ candles.length →
      simple_ma (candles.map Candle.close) ts.ma_period = .ok ma →
      listMaxQ (sliceLastPy (candles.map Candle.close) 20) = .ok rh →
      NewsSentimentStrategy.generate_signal ts.news_strategy articles =
        .ok nr →
      ∀ r, NewsTrendMA200Combo.generate_signal ts candles articles =
          .ok r →
        ((r.signal_type = "BUY" ↔
          (((candles.getLast?).getD defaultCandle).close > ma ∧
           (ts.pullback_pct * 0.5 ≤
              (if rh > 0 then
                (rh - ((candles.getLast?).getD defaultCandle).close) / rh
              else 0) ∧
            (if rh > 0 then
                (rh - ((candles.getLast?).getD defaultCandle).close) / rh
              else 0) ≤ ts.pullback_pct))) ∧
         ((((candles.getLast?).getD defaultCandle).close > ma ∧
           (ts.pullback_pct * 0.5 ≤
              (if rh > 0 then
                (rh - ((candles.getLast?).getD defaultCandle).close) / rh
              else 0) ∧
            (if rh > 0 then
                (rh - ((candles.getLast?).getD defaultCandle).close) / rh
              else 0) ≤ ts.pullback_pct)) →
          0.7 ≤ r.confidence ∧
          ∀ n, r.extra.normalized_score = some n → 0.7 ≤ n))) := by
  refine ⟨fun hlen hnews r hr => ?_, fun hlen hhh hnews r hr => ?_,
    fun hlen hma hrh hnews r hr => ?_⟩
  · rw [rsi_combo_eq hlen hnews] at hr
    injection hr with h2
    subst h2
    obtain ⟨hiff, himp⟩ :=
      fused_result_props (compute_rsi (candles.map Candle.close)
          rs.rsi_period < rs.oversold) rfl
        (news_confidence_bounds hnews).2
    refine ⟨hiff, fun hcond => ?_⟩
    obtain ⟨hconf, hnorm⟩ := himp hcond
    refine ⟨hconf, fun n hn => ?_⟩
    injection hn with hn2
    rw [← hn2]
    exact hnorm
  · rw [breakout_combo_eq hlen hhh hnews] at hr
    injection hr with h2
    subst h2
    obtain ⟨hiff, himp⟩ :=
      fused_result_props
        (((candles.getLast?).getD defaultCandle).close > hh) rfl
        (news_confidence_bounds hnews).2
    refine ⟨hiff, fun hcond => ?_⟩
    obtain ⟨hconf, hnorm⟩ := himp hcond
    refine ⟨hconf, fun n hn => ?_⟩
    injection hn with hn2
    rw [← hn2]
    exact hnorm
  · rw [trend_combo_eq hlen hma hrh hnews] at hr
    injection hr with h2
    subst h2
    obtain ⟨hiff, himp⟩ :=
      fused_result_props
        ((((candles.getLast?).getD defaultCandle).close > ma) ∧
          (ts.pullback_pct * 0.5 ≤
              (if rh > 0 then
                (rh - ((candles.getLast?).getD defaultCandle).close) / rh
              else 0) ∧
            (if rh > 0 then
                (rh - ((candles.getLast?).getD defaultCandle).close) / rh
              else 0) ≤ ts.pullback_pct))
        (Bool.decide_and _ _).symm
        (news_confidence_bounds hnews).2
    refine ⟨hiff, fun hcond => ?_⟩
    obtain ⟨hconf, hnorm⟩ := himp hcond
    refine ⟨hconf, fun n hn => ?_⟩
    injection hn with hn2
    rw [← hn2]
    exact hnorm

/-- Witness for claim C9 at the concrete scenarios of the fusion witness:
the RSI and breakout variants fire BUY with confidence 921/1000 ≥ 0.7,
and the trend variant (technical condition false) reports HOLD. -/
theorem buy_iff_tech_with_high_confidence_witness :
    (1 + 1 ≤ ([⟨"", 0, 0, 0, 2, 0⟩,
      ⟨"", 0, 0, 0, 1, 0⟩] : List Candle).length) ∧
    (NewsRSICombo.generate_signal ⟨⟨24, 0⟩, 1, 30⟩
        [⟨"", 0, 0, 0, 2, 0⟩, ⟨"", 0, 0, 0, 1, 0⟩] [] =
      .ok ⟨"BUY", 921/1000, ⟨none, some (921/1000), some 0, none, none,
        none, none, none, some ⟨"HOLD", 0, ⟨none, 0, 0⟩⟩⟩⟩) ∧
    (("BUY" = "BUY" ↔
        compute_rsi (([⟨"", 0, 0, 0, 2, 0⟩,
          ⟨"", 0, 0, 0, 1, 0⟩] : List Candle).map Candle.close) 1 < 30) ∧
     (compute_rsi (([⟨"", 0, 0, 0, 2, 0⟩,
          ⟨"", 0, 0, 0, 1, 0⟩] : List Candle).map Candle.close) 1 < 30 →
      (0.7 : ℚ) ≤ 921/1000 ∧
      ∀ n, (some (921/1000 : ℚ) : Option ℚ) = some n → 0.7 ≤ n)) ∧
    (NewsBreakoutCombo.generate_signal ⟨⟨24, 0⟩, 1⟩
        [⟨"", 0, 1, 0, 1, 0⟩, ⟨"", 0, 2, 0, 2, 0⟩] [] =
      .ok ⟨"BUY", 921/1000, ⟨none, some (921/1000), none, some 2, some 1,
        none, none, none, some ⟨"HOLD", 0, ⟨none, 0, 0⟩⟩⟩⟩) ∧
    (("BUY" = "BUY" ↔ (2 : ℚ) > 1) ∧
     ((2 : ℚ) > 1 →
      (0.7 : ℚ) ≤ 921/1000 ∧
      ∀ n, (some (921/1000 : ℚ) : Option ℚ) = some n → 0.7 ≤ n)) ∧
    (NewsTrendMA200Combo.generate_signal ⟨⟨24, 0⟩, 1, 1/20⟩
        (List.replicate 21 ⟨"", 0, 1, 0, 1, 0⟩) [] =
      .ok ⟨"HOLD", 1/5, ⟨none, some 0, none, some 1, none, some 1, some 1,
        some 0, some ⟨"HOLD", 0, ⟨none, 0, 0⟩⟩⟩⟩) ∧
    (("HOLD" = "BUY" ↔
        ((1 : ℚ) > 1 ∧
         ((1/20 : ℚ) * 0.5 ≤
            (if (1 : ℚ) > 0 then ((1 : ℚ) - 1) / 1 else 0) ∧
          (if (1 : ℚ) > 0 then ((1 : ℚ) - 1) / 1 else 0) ≤ 1/20))) ∧
     (((1 : ℚ) > 1 ∧
         ((1/20 : ℚ) * 0.5 ≤
            (if (1 : ℚ) > 0 then ((1 : ℚ) - 1) / 1 else 0) ∧
          (if (1 : ℚ) > 0 then ((1 : ℚ) - 1) / 1 else 0) ≤ 1/20)) →
      (0.7 : ℚ) ≤ 1/5 ∧
      ∀ n, (some (0 : ℚ) : Option ℚ) = some n → 0.7 ≤ n)) := by
  have hn : NewsSentimentStrategy.generate_signal ⟨24, 0⟩ [] =
      .ok ⟨"HOLD", 0, ⟨none, 0, 0⟩⟩ := by
    norm_num [NewsSentimentStrategy.generate_signal,
      NewsSentimentStrategy.aggregate_sentiment, round3, round_eq,
      max_def, min_def, abs]
  have hhh : highest_high (([⟨"", 0, 1, 0, 1, 0⟩,
      ⟨"", 0, 2, 0, 2, 0⟩] : List Candle).dropLast) 1 = .ok 1 := by
    norm_num [highest_high, sliceLastPy, listMaxQ, List.dropLast]
  have hma : simple_ma ((List.replicate 21
      (⟨"", 0, 1, 0, 1, 0⟩ : Candle)).map Candle.close) 1 = .ok 1 := by
    norm_num [simple_ma, sliceLastPy, List.replicate]
  have hrh : listMaxQ (sliceLastPy ((List.replicate 21
      (⟨"", 0, 1, 0, 1, 0⟩ : Candle)).map Candle.close) 20) = .ok 1 := by
    norm_num [listMaxQ, sliceLastPy, List.replicate, max_self]
  have hrR : NewsRSICombo.generate_signal ⟨⟨24, 0⟩, 1, 30⟩
      [⟨"", 0, 0, 0, 2, 0⟩, ⟨"", 0, 0, 0, 1, 0⟩] [] =
      .ok ⟨"BUY", 921/1000, ⟨none, some (921/1000), some 0, none, none,
        none, none, none, some ⟨"HOLD", 0, ⟨none, 0, 0⟩⟩⟩⟩ := by
    norm_num [NewsRSICombo.generate_signal,
      NewsSentimentStrategy.generate_signal,
      NewsSentimentStrategy.aggregate_sentiment, compute_rsi, diffs,
      fuseSignal, round3, round2, round_eq, max_def, min_def, abs,
      hold_ne_buy, buy_eq_buy]
  have hrB : NewsBreakoutCombo.generate_signal ⟨⟨24, 0⟩, 1⟩
      [⟨"", 0, 1, 0, 1, 0⟩, ⟨"", 0, 2, 0, 2, 0⟩] [] =
      .ok ⟨"BUY", 921/1000, ⟨none, some (921/1000), none, some 2, some 1,
        none, none, none, some ⟨"HOLD", 0, ⟨none, 0, 0⟩⟩⟩⟩ := by
    norm_num [NewsBreakoutCombo.generate_signal,
      NewsSentimentStrategy.generate_signal,
      NewsSentimentStrategy.aggregate_sentiment, highest_high,
      sliceLastPy, listMaxQ, fuseSignal, round3, round2, round_eq,
      max_def, min_def, abs, hold_ne_buy, buy_eq_buy]
  have hrT : NewsTrendMA200Combo.generate_signal ⟨⟨24, 0⟩, 1, 1/20⟩
      (List.replicate 21 ⟨"", 0, 1, 0, 1, 0⟩) [] =
      .ok ⟨"HOLD", 1/5, ⟨none, some 0, none, some 1, none, some 1, some 1,
        some 0, some ⟨"HOLD", 0, ⟨none, 0, 0⟩⟩⟩⟩ := by
    norm_num [NewsTrendMA200Combo.generate_signal,
      NewsSentimentStrategy.generate_signal,
      NewsSentimentStrategy.aggregate_sentiment, simple_ma, sliceLastPy,
      listMaxQ, fuseSignal, round3, round2, round_eq, max_def, min_def,
      abs, List.replicate, hold_ne_buy, buy_eq_buy]
  refine ⟨by decide, hrR, ?_, hrB, ?_, hrT, ?_⟩
  · exact (buy_iff_tech_with_high_confidence ⟨⟨24, 0⟩, 1, 30⟩
      ⟨⟨24, 0⟩, 1⟩ ⟨⟨24, 0⟩, 1, 1/20⟩
      [⟨"", 0, 0, 0, 2, 0⟩, ⟨"", 0, 0, 0, 1, 0⟩] []
      ⟨"HOLD", 0, ⟨none, 0, 0⟩⟩ 1 1 1).1 (by decide) hn _ hrR
  · exact (buy_iff_tech_with_high_confidence ⟨⟨24, 0⟩, 1, 30⟩
      ⟨⟨24, 0⟩, 1⟩ ⟨⟨24, 0⟩, 1, 1/20⟩
      [⟨"", 0, 1, 0, 1, 0⟩, ⟨"", 0, 2, 0, 2, 0⟩] []
      ⟨"HOLD", 0, ⟨none, 0, 0⟩⟩ 1 1 1).2.1 (by decide) hhh hn _ hrB
  · exact (buy_iff_tech_with_high_confidence ⟨⟨24, 0⟩, 1, 30⟩
      ⟨⟨24, 0⟩, 1⟩ ⟨⟨24, 0⟩, 1, 1/20⟩
      (List.replicate 21 ⟨"", 0, 1, 0, 1, 0⟩) []
      ⟨"HOLD", 0, ⟨none, 0, 0⟩⟩ 1 1 1).2.2 (by decide) hma hrh hn _ hrT

lemma pyFloatOr_sent_eq {f : FieldVal} (hf : f ≠ FieldVal.nonNumericStr) :
    pyFloatOr f 0 = .ok (claimSentVal f) := by
  cases f with
  | absent => rfl
  | num q =>
    simp only [pyFloatOr, claimSentVal]
    by_cases h0 : q = 0
    · rw [if_pos h0, h0]
    · rw [if_neg h0]
  | nonNumericStr => exact absurd rfl hf

lemma pyFloatOr_impact_eq {f : FieldVal} (hf : f ≠ FieldVal.nonNumericStr) :
    pyFloatOr f 0.5 = .ok (codeImpactVal f) := by
  cases f with
  | absent => rfl
  | num q => rfl
  | nonNumericStr => exact absurd rfl hf

lemma recency_weight_eq {h : ℚ} (hd : 1 + h / 8 ≠ 0) :
    recency_weight h = .ok (claimRecency h) := by
  unfold recency_weight claimRecency
  rw [if_neg hd]

/-- On raise-free inputs the accumulation loop computes exactly the sums
of the (falsy-defaulted) per-article weights and weighted sentiments. -/
lemma aggLoop_numeric_eq :
    ∀ (arts : List Article) (ws wt : ℚ), arts.all numericOk = true →
      arts.all denomOk = true →
      aggLoop arts ws wt =
        .ok (ws + (arts.map
               (fun a => claimSentVal a.sentiment_score * codeWeight a)).sum,
             wt + (arts.map codeWeight).sum) := by
  intro arts
  induction arts with
  | nil =>
    intro ws wt _ _
    simp [aggLoop]
  | cons a rest ih =>
    intro ws wt h1 h2
    rw [List.all_cons, Bool.and_eq_true] at h1 h2
    obtain ⟨ha1, hrest1⟩ := h1
    obtain ⟨ha2, hrest2⟩ := h2
    rw [numericOk, Bool.and_eq_true] at ha1
    have hs : a.sentiment_score ≠ FieldVal.nonNumericStr := by
      intro hc
      rw [hc] at ha1
      exact Bool.noConfusion ha1.1
    have hi : a.impact_score ≠ FieldVal.nonNumericStr := by
      intro hc
      rw [hc] at ha1
      exact Bool.noConfusion ha1.2
    have hd : 1 + a.hoursAgo / 8 ≠ 0 := of_decide_eq_true ha2
    simp only [aggLoop, pyFloatOr_sent_eq hs, pyFloatOr_impact_eq hi,
      recency_weight_eq hd]
    rw [ih _ _ hrest1 hrest2]
    simp only [List.map_cons, List.sum_cons, Except.ok.injEq,
      Prod.mk.injEq, codeWeight]
    constructor <;> ring

/-- On raise-free inputs `_aggregate_sentiment` returns exactly
`codeAvg`. -/
lemma aggregate_numeric_eq {arts : List Article}
    (h1 : arts.all numericOk = true) (h2 : arts.all denomOk = true) :
    NewsSentimentStrategy.aggregate_sentiment arts = .ok (codeAvg arts) := by
  unfold NewsSentimentStrategy.aggregate_sentiment codeAvg
  by_cases he : arts.isEmpty
  · rw [if_pos he]
    have hnil : arts = [] := List.isEmpty_iff.mp he
    subst hnil
    norm_num
  · rw [if_neg he, aggLoop_numeric_eq arts 0 0 h1 h2]
    simp only [zero_add]

/-- Counterexample to claim C5: on two same-time articles with stored
impact scores 0 and 1, the code's result (confidence 0.333) differs from
the claim's formula `w = impact * recency` with unrounded clamped
confidence (which predicts confidence 1): the falsy impact 0 is silently
replaced by 0.5 before weighting. -/
theorem news_formula_counterexample :
    NewsSentimentStrategy.generate_signal ⟨24, 2⟩
      [⟨.num 1, .num 0, 0⟩, ⟨.num (-1), .num 1, 0⟩] =
      .ok ⟨"HOLD", 333/1000, ⟨none, 2, -(333/1000)⟩⟩ ∧
    NewsSentimentStrategy.generate_signal ⟨24, 2⟩
      [⟨.num 1, .num 0, 0⟩, ⟨.num (-1), .num 1, 0⟩] ≠
      .ok (claimNewsResult ⟨24, 2⟩
        [⟨.num 1, .num 0, 0⟩, ⟨.num (-1), .num 1, 0⟩]) ∧
    (claimNewsResult ⟨24, 2⟩
      [⟨.num 1, .num 0, 0⟩, ⟨.num (-1), .num 1, 0⟩]).confidence = 1 := by
  have h1 : NewsSentimentStrategy.generate_signal ⟨24, 2⟩
      [⟨.num 1, .num 0, 0⟩, ⟨.num (-1), .num 1, 0⟩] =
      .ok ⟨"HOLD", 333/1000, ⟨none, 2, -(333/1000)⟩⟩ := by
    norm_num [NewsSentimentStrategy.generate_signal,
      NewsSentimentStrategy.aggregate_sentiment, aggLoop, pyFloatOr,
      recency_weight, round3, round_eq, max_def, min_def, abs,
      hold_ne_buy, buy_eq_buy]
  have h2 : claimNewsResult ⟨24, 2⟩
      [⟨.num 1, .num 0, 0⟩, ⟨.num (-1), .num 1, 0⟩] =
      ⟨"HOLD", 1, ⟨none, 2, -1⟩⟩ := by
    norm_num [claimNewsResult, claimAvg, claimWeight, claimImpactVal,
      claimSentVal, claimRecency, max_def, min_def, abs, hold_ne_buy]
  refine ⟨h1, ?_, by rw [h2]⟩
  rw [h1, h2]
  simp only [ne_eq, Except.ok.injEq, NewsResult.mk.injEq]
  rintro ⟨-, hc, -⟩
  norm_num at hc

/-- Claim C5 as amended: on article lists whose present fields are numeric
and whose recency denominators are nonzero, `generate_signal` returns
the short-circuit result below `min_articles`, and otherwise BUY exactly
when the weighted average is positive, with confidence the clamped
absolute average rounded to 3 decimals — where the per-article weight is
`impact' * max(0.1, 1/(1 + hours_ago/8))` and `impact'` is 0.5 whenever
the stored impact is absent or 0 (Python falsy), else the stored
impact. -/
theorem news_formula_amended (self : NewsSentimentStrategy)
    (arts : List Article) (h1 : arts.all numericOk = true)
    (h2 : arts.all denomOk = true) :
    (arts.length < self.min_articles →
      NewsSentimentStrategy.generate_signal self arts =
        .ok ⟨"HOLD", 0.1, ⟨some ("not_enough_news"), arts.length, 0⟩⟩) ∧
    (self.min_articles ≤ arts.length →
      NewsSentimentStrategy.generate_signal self arts =
        .ok ⟨if codeAvg arts > 0 then "BUY" else "HOLD",
             round3 (min 1 (max 0 |codeAvg arts|)),
             ⟨none, arts.length, round3 (codeAvg arts)⟩⟩) := by
  constructor
  · intro h
    unfold NewsSentimentStrategy.generate_signal
    rw [if_pos h]
  · intro h
    unfold NewsSentimentStrategy.generate_signal
    rw [if_neg (not_lt.mpr h)]
    simp only [aggregate_numeric_eq h1 h2]

/-- Witness for the amended claim C5: two articles (one with an absent
impact) yield the weighted average 0.9 and a BUY with confidence 0.9. -/
theorem news_formula_amended_witness :
    ([(⟨.num 1, .num 1, 0⟩ : Article),
      ⟨.num (1/2), .absent, 8⟩].all numericOk = true) ∧
    ([(⟨.num 1, .num 1, 0⟩ : Article),
      ⟨.num (1/2), .absent, 8⟩].all denomOk = true) ∧
    (2 ≤ ([(⟨.num 1, .num 1, 0⟩ : Article),
      ⟨.num (1/2), .absent, 8⟩] : List Article).length) ∧
    (NewsSentimentStrategy.generate_signal ⟨24, 2⟩
        [⟨.num 1, .num 1, 0⟩, ⟨.num (1/2), .absent, 8⟩] =
      .ok ⟨if codeAvg [⟨.num 1, .num 1, 0⟩,
              ⟨.num (1/2), .absent, 8⟩] > 0 then "BUY" else "HOLD",
           round3 (min 1 (max 0 |codeAvg [⟨.num 1, .num 1, 0⟩,
              ⟨.num (1/2), .absent, 8⟩]|)),
           ⟨none, 2, round3 (codeAvg [⟨.num 1, .num 1, 0⟩,
              ⟨.num (1/2), .absent, 8⟩])⟩⟩) ∧
    codeAvg [⟨.num 1, .num 1, 0⟩, ⟨.num (1/2), .absent, 8⟩] = 9/10 := by
  have hn : [(⟨.num 1, .num 1, 0⟩ : Article),
      ⟨.num (1/2), .absent, 8⟩].all numericOk = true := by decide
  have hd : [(⟨.num 1, .num 1, 0⟩ : Article),
      ⟨.num (1/2), .absent, 8⟩].all denomOk = true := by
    norm_num [denomOk]
  refine ⟨hn, hd, by decide, ?_, ?_⟩
  · exact (news_formula_amended ⟨24, 2⟩
      [⟨.num 1, .num 1, 0⟩, ⟨.num (1/2), .absent, 8⟩] hn hd).2 (by decide)
  · norm_num [codeAvg, codeWeight, codeImpactVal, claimSentVal,
      claimRecency, max_def]

/-- Counterexample to claim C7: a truthy non-numeric `sentiment_score`
field is not coerced to a default — `float(...)` raises `ValueError`, so
`generate_signal` does not complete on every article list. -/
theorem malformed_input_counterexample :
    NewsSentimentStrategy.generate_signal ⟨24, 2⟩
      [⟨.nonNumericStr, .num 1, 0⟩, ⟨.nonNumericStr, .num 1, 0⟩] =
      .error .valueError := rfl

/-- Claim C7 as amended: an absent (or falsy) `sentiment_score` or
`impact_score` is silently replaced by the defaults 0.0 / 0.5 — an
article with both fields absent aggregates exactly like one carrying the
numeric defaults — and `generate_signal` completes without raising on
every article list whose present fields are numeric and whose recency
denominators are nonzero; only a truthy non-numeric field raises. -/
theorem malformed_input_amended (self : NewsSentimentStrategy) (h : ℚ)
    (rest arts : List Article) (h1 : arts.all numericOk = true)
    (h2 : arts.all denomOk = true) :
    (NewsSentimentStrategy.generate_signal self
        (⟨.absent, .absent, h⟩ :: rest) =
      NewsSentimentStrategy.generate_signal self
        (⟨.num 0, .num 0.5, h⟩ :: rest)) ∧
    exceptOk (NewsSentimentStrategy.generate_signal self arts) = true := by
  constructor
  · unfold NewsSentimentStrategy.generate_signal
      NewsSentimentStrategy.aggregate_sentiment
    norm_num [aggLoop, pyFloatOr]
  · unfold NewsSentimentStrategy.generate_signal
    split
    · rfl
    · simp only [aggregate_numeric_eq h1 h2]
      rfl

/-- Witness for the amended claim C7: an article with both fields absent
behaves like one carrying the numeric defaults, and a fully numeric
article list completes. -/
theorem malformed_input_amended_witness :
    ([(⟨.num 1, .num 1, 0⟩ : Article)].all numericOk = true) ∧
    ([(⟨.num 1, .num 1, 0⟩ : Article)].all denomOk = true) ∧
    (NewsSentimentStrategy.generate_signal ⟨24, 2⟩ [⟨.absent, .absent, 4⟩] =
      NewsSentimentStrategy.generate_signal ⟨24, 2⟩
        [⟨.num 0, .num 0.5, 4⟩]) ∧
    exceptOk (NewsSentimentStrategy.generate_signal ⟨24, 2⟩
      [⟨.num 1, .num 1, 0⟩]) = true := by
  have hn : [(⟨.num 1, .num 1, 0⟩ : Article)].all numericOk = true := by
    decide
  have hd : [(⟨.num 1, .num 1, 0⟩ : Article)].all denomOk = true := by
    norm_num [denomOk]
  have happ := malformed_input_amended ⟨24, 2⟩ 4 []
    [⟨.num 1, .num 1, 0⟩] hn hd
  exact ⟨hn, hd, happ.1, happ.2⟩

/-- Counterexample to claim C8: with `lookback = 0` and one candle the
code returns the maximum over ALL candles (Python `candles[-0:]` is the
whole list), while the claim's "maximum over the last 0 candles" has no
value (the claim-side function raises on the empty slice). -/
theorem highest_high_counterexample :
    highest_high [⟨"", 0, 5, 0, 0, 0⟩] 0 = .ok 5 ∧
    claimHH [⟨"", 0, 5, 0, 0, 0⟩] 0 = .error .valueError ∧
    highest_high [⟨"", 0, 5, 0, 0, 0⟩] 0 ≠
      claimHH [⟨"", 0, 5, 0, 0, 0⟩] 0 := by
  refine ⟨rfl, rfl, ?_⟩
  intro hc
  exact Except.noConfusion hc

/-- Claim C8 as amended: for every positive `lookback`, `highest_high`
returns the maximum high over the last `lookback` candles (all candles
when fewer exist); whenever the candle count is at most `lookback` it
returns exactly the maximum over the full input, so the result never
exceeds that maximum. -/
theorem highest_high_amended (candles : List Candle) (lookback : Nat) :
    (1 ≤ lookback →
      highest_high candles lookback = claimHH candles lookback) ∧
    (candles.length ≤ lookback →
      highest_high candles lookback =
        listMaxQ (candles.map Candle.high)) ∧
    (∀ v w, candles.length ≤ lookback →
      highest_high candles lookback = .ok v →
      listMaxQ (candles.map Candle.high) = .ok w → v ≤ w) := by
  have hfull : candles.length ≤ lookback →
      highest_high candles lookback =
        listMaxQ (candles.map Candle.high) := by
    intro h2
    unfold highest_high
    by_cases hlt : candles.length < lookback
    · rw [if_pos hlt]
    · rw [if_neg hlt]
      have heq : candles.length = lookback :=
        le_antisymm h2 (not_lt.mp hlt)
      unfold sliceLastPy
      by_cases h0 : lookback = 0
      · rw [if_pos h0]
      · rw [if_neg h0]
        have hz : candles.length - lookback = 0 := by omega
        rw [hz, List.drop_zero]
  refine ⟨?_, hfull, fun v w hle hv hw => ?_⟩
  · intro h1
    have h0 : ¬(lookback = 0) := by omega
    unfold highest_high claimHH sliceLastPy lastSlice
    rw [if_neg h0]
  · rw [hfull hle] at hv
    rw [hv] at hw
    injection hw with he
    exact le_of_eq he

/-- Witness for the amended claim C8 at `lookback = 1` on a one-candle
list. -/
theorem highest_high_amended_witness :
    (1 ≤ 1) ∧
    (highest_high [⟨"", 0, 5, 0, 0, 0⟩] 1 =
      claimHH [⟨"", 0, 5, 0, 0, 0⟩] 1) ∧
    (([(⟨"", 0, 5, 0, 0, 0⟩ : Candle)]).length ≤ 1) ∧
    (highest_high [⟨"", 0, 5, 0, 0, 0⟩] 1 =
      listMaxQ ([(⟨"", 0, 5, 0, 0, 0⟩ : Candle)].map Candle.high)) ∧
    ((5 : ℚ) ≤ 5) := by
  have h := highest_high_amended [⟨"", 0, 5, 0, 0, 0⟩] 1
  exact ⟨by decide, h.1 (by decide), by decide, h.2.1 (by decide),
    h.2.2 5 5 (by decide) rfl rfl⟩

lemma max_pos_part (d : ℚ) : max d 0 = if 0 < d then d else 0 := by
  by_cases h : 0 < d
  · rw [if_pos h, max_eq_left (le_of_lt h)]
  · rw [if_neg h, max_eq_right (not_lt.mp h)]

lemma max_neg_part (d : ℚ) : max (-d) 0 = if d < 0 then -d else 0 := by
  by_cases h : d < 0
  · rw [if_pos h, max_eq_left (by linarith)]
  · rw [if_neg h, max_eq_right (by linarith [not_lt.mp h])]

/-- The paired fold of the RSI loop splits into two independent Wilder
smoothings when the gain and loss lists have equal length. -/
lemma foldl_zip_wilder (p : Nat) :
    ∀ (gs ls : List ℚ) (a b : ℚ), gs.length = ls.length →
      (gs.zip ls).foldl
        (fun acc gl => ((acc.1 * ((p : ℚ) - 1) + gl.1) / p,
          (acc.2 * ((p : ℚ) - 1) + gl.2) / p)) (a, b) =
      (wilder_smooth p a gs, wilder_smooth p b ls) := by
  intro gs
  induction gs with
  | nil =>
    intro ls a b hl
    cases ls with
    | nil => simp [wilder_smooth]
    | cons l ls2 => exact absurd hl (by simp)
  | cons g gs2 ih =>
    intro ls a b hl
    cases ls with
    | nil => exact absurd hl (by simp)
    | cons l ls2 =>
      have hl2 : gs2.length = ls2.length := by simpa using hl
      simp only [List.zip_cons_cons, List.foldl_cons]
      rw [ih ls2 _ _ hl2]
      simp [wilder_smooth, wilder_step]

/-- Claim C6: `compute_rsi` returns 50 exactly when fewer than `period+1`
closes are given; otherwise (for a positive period) it equals the Wilder
RSI reference definition with separately smoothed gain and loss
averages. -/
theorem compute_rsi_matches_wilder (closes : List ℚ) (period : Nat) :
    (closes.length < period + 1 → compute_rsi closes period = 50) ∧
    (1 ≤ period → period + 1 ≤ closes.length →
      compute_rsi closes period = wilder_rsi_ref closes period) := by
  constructor
  · intro h
    unfold compute_rsi
    rw [if_pos h]
  · intro hp hlen
    have hnl : ¬(closes.length < period + 1) := not_lt.mpr hlen
    unfold compute_rsi wilder_rsi_ref
    rw [if_neg hnl, if_neg hnl]
    rw [show (fun d : ℚ => max d 0) = fun d : ℚ => if 0 < d then d else 0
      from funext max_pos_part]
    rw [show (fun d : ℚ => max (-d) 0) =
      fun d : ℚ => if d < 0 then -d else 0 from funext max_neg_part]
    dsimp only
    rw [foldl_zip_wilder period _ _ _ _
      (by simp [List.length_drop, List.length_map])]

/-- Witness for claim C6: a too-short input yields the neutral 50, and a
three-close series with period 1 matches the reference definition. -/
theorem compute_rsi_matches_wilder_witness :
    (([1] : List ℚ).length < 1 + 1) ∧
    compute_rsi [1] 1 = 50 ∧
    (1 ≤ 1) ∧ (1 + 1 ≤ ([2, 1, 3] : List ℚ).length) ∧
    compute_rsi [2, 1, 3] 1 = wilder_rsi_ref [2, 1, 3] 1 :=
  ⟨by decide, (compute_rsi_matches_wilder [1] 1).1 (by decide),
   by decide, by decide,
   (compute_rsi_matches_wilder [2, 1, 3] 1).2 (by decide) (by decide)⟩
